import Mathlib

/-!
# Verification of the WhatsApp webhook ingestion/reconciliation pipeline

Shallow embedding of the two-lambda webhook server:

* the receiver lambda (signature verification, tenant resolution, SQS publish),
* the combined single-lambda handler (`src/index.js`), and
* the batch DB processor (`src/db-processor/index.js`) with its relational
  models (`Message`, `CampaignAudience`, `WebhookEvent`, `IncomingMessage`,
  `Organization`).

JavaScript objects are embedded as structures with `Option` fields for
properties that may be `undefined`; accessing a property of `undefined`
(a TypeError) is modelled with `Except`.  SQL tables are lists of row
structures; `CURRENT_TIMESTAMP` and `new Date()` are modelled by a `now`
instant carried in the database state.  Timestamps are abstract `Nat`
instants (epoch milliseconds).  Every database write appends an entry to
an operation log so that write ordering can be reasoned about.
-/

/-- JavaScript truthiness of an optional string: `undefined` and `""` are falsy. -/
def jsTruthy : Option String → Bool
  | none => false
  | some s => s ≠ ""

/-- JavaScript `x || d` for an optional string `x` (both `undefined` and `""` fall back). -/
def jsOr (x : Option String) (d : String) : String :=
  match x with
  | none => d
  | some s => if s = "" then d else s

/-- Render a JS value in a template literal: `undefined` prints as "undefined". -/
def jsRender (x : Option String) : String :=
  match x with
  | none => "undefined"
  | some s => s

/-! ## Webhook payload shapes (provider delivery body) -/

/-- One entry of a `failed` status event's `errors` array. -/
structure StatusError where
  code : Nat
  title : String
  message : Option String
deriving DecidableEq, Repr

/-- One element of `value.statuses`.  An absent `errors` array is `[]`
(the code only tests `errors && errors.length > 0`). -/
structure StatusEvent where
  id : String
  status : String
  timestamp : Option Nat
  errors : List StatusError
deriving DecidableEq, Repr

structure TextField where
  body : Option String
deriving DecidableEq, Repr

/-- Media object for image/video/audio/document messages. -/
structure MediaField where
  caption : Option String
  id : Option String
  mime_type : Option String
  file_size : Option Nat
  filename : Option String
deriving DecidableEq, Repr

/-- Location object; coordinates are kept as their JS string rendering. -/
structure LocationField where
  latitude : Option String
  longitude : Option String
  name : Option String
deriving DecidableEq, Repr

structure ContactName where
  formatted_name : Option String
deriving DecidableEq, Repr

structure ContactField where
  name : Option ContactName
deriving DecidableEq, Repr

structure ButtonReplyField where
  id : String
  title : String
deriving DecidableEq, Repr

structure ListReplyField where
  id : String
  title : String
  description : Option String
deriving DecidableEq, Repr

structure InteractiveField where
  itype : Option String
  button_reply : Option ButtonReplyField
  list_reply : Option ListReplyField
deriving DecidableEq, Repr

/-- Legacy `button`-type message payload. -/
structure ButtonField where
  payload : Option String
  text : Option String
deriving DecidableEq, Repr

structure ContextField where
  id : Option String
deriving DecidableEq, Repr

/-- One element of `value.messages`. -/
structure IncomingMsg where
  id : String
  from_ : Option String
  timestamp : Option Nat
  mtype : String
  text : Option TextField
  image : Option MediaField
  video : Option MediaField
  audio : Option MediaField
  document : Option MediaField
  location : Option LocationField
  contacts : Option (List ContactField)
  interactive : Option InteractiveField
  button : Option ButtonField
  context : Option ContextField
deriving DecidableEq, Repr

structure MetadataField where
  phone_number_id : Option String
  display_phone_number : Option String
deriving DecidableEq, Repr

structure ChangeValue where
  metadata : Option MetadataField
  statuses : List StatusEvent
  messages : List IncomingMsg
deriving DecidableEq, Repr

structure Change where
  field : String
  value : Option ChangeValue
deriving DecidableEq, Repr

structure Entry where
  id : Option String
  changes : List Change
deriving DecidableEq, Repr

structure WebhookPayload where
  entry : List Entry
deriving DecidableEq, Repr

/-! ## Relational rows -/

/-- A row of the `organizations` table. -/
structure OrgRow where
  id : Nat
  name : String
  status : String
  whatsapp_business_account_id : Option String
  whatsapp_phone_number_id : Option String
  whatsapp_webhook_verify_token : Option String
  whatsapp_app_secret : Option String
deriving DecidableEq, Repr

/-- A row of the `messages` ledger. -/
structure MessageRow where
  whatsapp_message_id : String
  campaign_id : Option Nat
  message_status : String
  sent_at : Option Nat
  delivered_at : Option Nat
  read_at : Option Nat
  failed_at : Option Nat
  failure_reason : Option String
deriving DecidableEq, Repr

/-- A row of the `campaign_audience` ledger. -/
structure CampaignAudienceRow where
  id : Nat
  campaign_id : Nat
  whatsapp_message_id : Option String
  message_status : String
  sent_at : Option Nat
  delivered_at : Option Nat
  read_at : Option Nat
  failed_at : Option Nat
  failure_reason : Option String
deriving DecidableEq, Repr

/-- A row of the `campaigns` table (aggregate counters only). -/
structure CampaignRow where
  id : Nat
  total_targeted_audience : Nat
  total_sent : Nat
  total_delivered : Nat
  total_read : Nat
  total_failed : Nat
deriving DecidableEq, Repr

/-- The structured `interactionData` object built by the handlers. -/
structure InteractionData where
  itype : String
  button_id : Option String := none
  button_title : Option String := none
  list_id : Option String := none
  list_title : Option String := none
  list_description : Option String := none
deriving DecidableEq, Repr

/-- A row of `incoming_messages`. -/
structure IncomingMessageRow where
  id : Nat
  organization_id : Nat
  whatsapp_message_id : String
  from_phone_number : Option String
  to_phone_number : Option String
  message_type : String
  content : String
  media_url : Option String
  media_type : Option String
  media_size : Option Nat
  timestamp : Nat
  interactive_type : Option String
  interactive_data : Option InteractionData
  context_message_id : Option String
  context_campaign_id : Option Nat
  processed : Bool
deriving DecidableEq, Repr

/-- A row of `webhook_events` (the audit log). -/
structure WebhookEventRow where
  id : Nat
  organization_id : Option Nat
  campaign_id : Option Nat
  event_type : String
  whatsapp_message_id : Option String
  from_phone_number : Option String
  to_phone_number : Option String
  status : String
  timestamp : Nat
  interactive_type : Option String
  interactive_data : Option InteractionData
  processed : Bool
  error_message : Option String
deriving DecidableEq, Repr

/-- One logged database write (in execution order). -/
inductive DbOp where
  | webhookEventsInsert (id : Nat)
  | webhookEventsMarkProcessed (id : Nat)
  | messagesUpdate (wamid : String)
  | messagesFailureUpdate (wamid : String)
  | campaignAudienceUpdate (wamid : String)
  | campaignAudienceFailureUpdate (wamid : String)
  | campaignsUpdate (cid : Nat)
  | incomingMessagesInsert (id : Nat)
  | incomingMessagesMarkProcessed (id : Nat)
deriving DecidableEq, Repr

/-- Whether a logged write is the insertion of an audit (webhook_events) row. -/
def DbOp.isAuditInsert : DbOp → Bool
  | .webhookEventsInsert _ => true
  | _ => false

/-- The relational store, plus an append-only log of the writes performed
and a fresh-id counter for inserts.  `now` models the database clock. -/
structure DB where
  organizations : List OrgRow
  messages : List MessageRow
  campaign_audience : List CampaignAudienceRow
  campaigns : List CampaignRow
  incoming_messages : List IncomingMessageRow
  webhook_events : List WebhookEventRow
  nextId : Nat
  now : Nat
  log : List DbOp
deriving DecidableEq, Repr

/-! ## Organization model (`models/Organization.js` / receiver lookups) -/

namespace Organization

/-- `SELECT * FROM organizations WHERE whatsapp_business_account_id = $1 AND status = 'active'`,
first row or null. -/
def findByWhatsAppBusinessAccountId (orgs : List OrgRow) (businessAccountId : String) :
    Option OrgRow :=
  orgs.find? fun o =>
    o.whatsapp_business_account_id == some businessAccountId && o.status == "active"

/-- `SELECT * FROM organizations WHERE whatsapp_phone_number_id = $1 AND status = 'active'`. -/
def findByWhatsAppPhoneNumberId (orgs : List OrgRow) (phoneNumberId : String) :
    Option OrgRow :=
  orgs.find? fun o =>
    o.whatsapp_phone_number_id == some phoneNumberId && o.status == "active"

/-- The `{ businessAccountId }` / `{ phoneNumberId }` object returned by
`Organization.extractOrganizationFromWebhook`. -/
structure OrgInfo where
  businessAccountId : Option String := none
  phoneNumberId : Option String := none
deriving DecidableEq, Repr

/-- `Organization.extractOrganizationFromWebhook` (`models/Organization.js`). -/
def extractOrganizationFromWebhook (p : WebhookPayload) : Option OrgInfo :=
  match p.entry.head? with
  | none => none
  | some e =>
    if jsTruthy e.id then
      some { businessAccountId := e.id }
    else
      match e.changes.head? with
      | none => none
      | some c =>
        match c.value with
        | none => none
        | some v =>
          match v.metadata with
          | none => none
          | some m =>
            if jsTruthy m.phone_number_id then
              some { phoneNumberId := m.phone_number_id }
            else none

end Organization

/-- `findOrganizationFromWebhook` (identical in the receiver lambda and the
db-processor): try the first entry's id against active business-account ids,
then fall back to the first change's `metadata.phone_number_id`. -/
def findOrganizationFromWebhook (orgs : List OrgRow) (p : WebhookPayload) : Option OrgRow :=
  match p.entry.head? with
  | none => none
  | some e =>
    let byBA :=
      match e.id with
      | some a =>
        if a ≠ "" then Organization.findByWhatsAppBusinessAccountId orgs a else none
      | none => none
    match byBA with
    | some org => some org
    | none =>
      match e.changes.head? with
      | none => none
      | some c =>
        match c.value with
        | none => none
        | some v =>
          match v.metadata with
          | none => none
          | some m =>
            match m.phone_number_id with
            | some pn =>
              if pn ≠ "" then Organization.findByWhatsAppPhoneNumberId orgs pn else none
            | none => none

/-- The business-account-id arm of tenant resolution, in isolation. -/
def lookupByBusinessAccount (orgs : List OrgRow) (p : WebhookPayload) : Option OrgRow :=
  match p.entry.head? with
  | none => none
  | some e =>
    match e.id with
    | some a =>
      if a ≠ "" then Organization.findByWhatsAppBusinessAccountId orgs a else none
    | none => none

/-- The phone-number-id fallback arm of tenant resolution, in isolation. -/
def lookupByPhoneNumber (orgs : List OrgRow) (p : WebhookPayload) : Option OrgRow :=
  match p.entry.head? with
  | none => none
  | some e =>
    match e.changes.head? with
    | none => none
    | some c =>
      match c.value with
      | none => none
      | some v =>
        match v.metadata with
        | none => none
        | some m =>
          match m.phone_number_id with
          | some pn =>
            if pn ≠ "" then Organization.findByWhatsAppPhoneNumberId orgs pn else none
          | none => none

/-! ## Message ledger mutators (`models/Message.js`) -/

namespace Message

/-- The per-status column update of `Message.updateStatus`: `delivered`, `read`
and `sent` each write their dedicated timestamp column; any other status only
overwrites `message_status`. -/
def applyStatus (status : String) (ts : Nat) (r : MessageRow) : MessageRow :=
  if status == "delivered" then
    { r with message_status := status, delivered_at := some ts }
  else if status == "read" then
    { r with message_status := status, read_at := some ts }
  else if status == "sent" then
    { r with message_status := status, sent_at := some ts }
  else
    { r with message_status := status }

/-- `Message.updateStatus(whatsappMessageId, status, timestamp)`: UPDATE all
rows keyed on the provider message id, returning the first updated row. -/
def updateStatus (db : DB) (wamid status : String) (ts : Nat) :
    Option MessageRow × DB :=
  let updated := db.messages.map fun r =>
    if r.whatsapp_message_id == wamid then applyStatus status ts r else r
  let matched := (db.messages.find? fun r => r.whatsapp_message_id == wamid).map
    (applyStatus status ts)
  (matched, { db with messages := updated, log := db.log ++ [.messagesUpdate wamid] })

/-- `Message.updateWithFailure(whatsappMessageId, failureReason)`:
sets `message_status = 'failed'`, the failure reason and `failed_at = CURRENT_TIMESTAMP`. -/
def updateWithFailure (db : DB) (wamid failureReason : String) :
    Option MessageRow × DB :=
  let upd : MessageRow → MessageRow := fun r =>
    { r with message_status := "failed", failure_reason := some failureReason,
             failed_at := some db.now }
  let updated := db.messages.map fun r =>
    if r.whatsapp_message_id == wamid then upd r else r
  let matched := (db.messages.find? fun r => r.whatsapp_message_id == wamid).map upd
  (matched, { db with messages := updated, log := db.log ++ [.messagesFailureUpdate wamid] })

/-- `Message.findByWhatsAppId`. -/
def findByWhatsAppId (db : DB) (wamid : String) : Option MessageRow :=
  db.messages.find? fun r => r.whatsapp_message_id == wamid

end Message

/-! ## Campaign-audience ledger mutators (`models/CampaignAudience.js`) -/

namespace CampaignAudience

/-- The count queries and campaign UPDATE of `CampaignAudience.updateCampaignStats`:
the parent campaign's counters are recomputed from a fresh count over all
`campaign_audience` rows of that campaign. -/
def updateCampaignStats (db : DB) (cid : Nat) : DB :=
  let rows := db.campaign_audience.filter fun r => r.campaign_id == cid
  let countWith : String → Nat := fun s => (rows.filter fun r => r.message_status == s).length
  let campaigns := db.campaigns.map fun c =>
    if c.id == cid then
      { c with
        total_targeted_audience := rows.length
        total_sent := countWith "sent"
        total_delivered := countWith "delivered"
        total_read := countWith "read"
        total_failed := countWith "failed" }
    else c
  { db with campaigns := campaigns, log := db.log ++ [.campaignsUpdate cid] }

/-- The per-status column update of `CampaignAudience.updateStatus`. -/
def applyStatus (status : String) (ts : Nat) (r : CampaignAudienceRow) : CampaignAudienceRow :=
  if status == "delivered" then
    { r with message_status := status, delivered_at := some ts }
  else if status == "read" then
    { r with message_status := status, read_at := some ts }
  else if status == "sent" then
    { r with message_status := status, sent_at := some ts }
  else
    { r with message_status := status }

/-- `CampaignAudience.updateStatus(whatsappMessageId, status, timestamp)`:
UPDATE keyed on the provider message id; when a row matched, the parent
campaign's statistics are then recomputed. -/
def updateStatus (db : DB) (wamid status : String) (ts : Nat) :
    Option CampaignAudienceRow × DB :=
  let updated := db.campaign_audience.map fun r =>
    if r.whatsapp_message_id == some wamid then applyStatus status ts r else r
  let matched := (db.campaign_audience.find? fun r => r.whatsapp_message_id == some wamid).map
    (applyStatus status ts)
  let db1 := { db with campaign_audience := updated,
                       log := db.log ++ [.campaignAudienceUpdate wamid] }
  match matched with
  | some row => (some row, updateCampaignStats db1 row.campaign_id)
  | none => (none, db1)

/-- `CampaignAudience.updateWithFailure(whatsappMessageId, failureReason)`:
sets `message_status = 'failed'`, the failure reason and
`failed_at = CURRENT_TIMESTAMP`, then recomputes statistics when a row matched. -/
def updateWithFailure (db : DB) (wamid failureReason : String) :
    Option CampaignAudienceRow × DB :=
  let upd : CampaignAudienceRow → CampaignAudienceRow := fun r =>
    { r with message_status := "failed", failure_reason := some failureReason,
             failed_at := some db.now }
  let updated := db.campaign_audience.map fun r =>
    if r.whatsapp_message_id == some wamid then upd r else r
  let matched := (db.campaign_audience.find? fun r => r.whatsapp_message_id == some wamid).map upd
  let db1 := { db with campaign_audience := updated,
                       log := db.log ++ [.campaignAudienceFailureUpdate wamid] }
  match matched with
  | some row => (some row, updateCampaignStats db1 row.campaign_id)
  | none => (none, db1)

end CampaignAudience

/-! ## Audit log (`models/WebhookEvent.js`) -/

/-- The column values passed to `WebhookEvent.create`. -/
structure WebhookEventData where
  organization_id : Option Nat := none
  campaign_id : Option Nat := none
  event_type : String
  whatsapp_message_id : Option String := none
  from_phone_number : Option String := none
  to_phone_number : Option String := none
  status : String
  timestamp : Nat
  interactive_type : Option String := none
  interactive_data : Option InteractionData := none
deriving DecidableEq, Repr

namespace WebhookEvent

/-- `WebhookEvent.create`: INSERT with `processed = false`, returning the row. -/
def create (db : DB) (d : WebhookEventData) : WebhookEventRow × DB :=
  let row : WebhookEventRow :=
    { id := db.nextId
      organization_id := d.organization_id
      campaign_id := d.campaign_id
      event_type := d.event_type
      whatsapp_message_id := d.whatsapp_message_id
      from_phone_number := d.from_phone_number
      to_phone_number := d.to_phone_number
      status := d.status
      timestamp := d.timestamp
      interactive_type := d.interactive_type
      interactive_data := d.interactive_data
      processed := false
      error_message := none }
  (row, { db with webhook_events := db.webhook_events ++ [row]
                  nextId := db.nextId + 1
                  log := db.log ++ [.webhookEventsInsert row.id] })

/-- `WebhookEvent.markAsProcessed(id, errorMessage)`: sets `processed = true`
and the (possibly null) error text. -/
def markAsProcessed (db : DB) (id : Nat) (errorMessage : Option String) : DB :=
  let updated := db.webhook_events.map fun r =>
    if r.id == id then { r with processed := true, error_message := errorMessage } else r
  { db with webhook_events := updated, log := db.log ++ [.webhookEventsMarkProcessed id] }

end WebhookEvent

/-! ## Incoming messages (`db-processor/models/IncomingMessage.js`) -/

/-- The column values passed to `IncomingMessage.create`. -/
structure IncomingMessageData where
  organization_id : Nat
  whatsapp_message_id : String
  from_phone_number : Option String := none
  to_phone_number : Option String := none
  message_type : String
  content : String
  media_url : Option String := none
  media_type : Option String := none
  media_size : Option Nat := none
  timestamp : Nat
  interactive_type : Option String := none
  interactive_data : Option InteractionData := none
  context_message_id : Option String := none
  context_campaign_id : Option Nat := none
deriving DecidableEq, Repr

namespace IncomingMessage

/-- `IncomingMessage.isDuplicate`: does a row with this provider message id exist? -/
def isDuplicate (db : DB) (wamid : String) : Bool :=
  db.incoming_messages.any fun r => r.whatsapp_message_id == wamid

/-- `IncomingMessage.create`: INSERT with `processed = false`. -/
def create (db : DB) (d : IncomingMessageData) : IncomingMessageRow × DB :=
  let row : IncomingMessageRow :=
    { id := db.nextId
      organization_id := d.organization_id
      whatsapp_message_id := d.whatsapp_message_id
      from_phone_number := d.from_phone_number
      to_phone_number := d.to_phone_number
      message_type := d.message_type
      content := d.content
      media_url := d.media_url
      media_type := d.media_type
      media_size := d.media_size
      timestamp := d.timestamp
      interactive_type := d.interactive_type
      interactive_data := d.interactive_data
      context_message_id := d.context_message_id
      context_campaign_id := d.context_campaign_id
      processed := false }
  (row, { db with incoming_messages := db.incoming_messages ++ [row]
                  nextId := db.nextId + 1
                  log := db.log ++ [.incomingMessagesInsert row.id] })

/-- `IncomingMessage.markAsProcessed`. -/
def markAsProcessed (db : DB) (id : Nat) : DB :=
  let updated := db.incoming_messages.map fun r =>
    if r.id == id then { r with processed := true } else r
  { db with incoming_messages := updated,
            log := db.log ++ [.incomingMessagesMarkProcessed id] }

end IncomingMessage

/-! ## Typed content extraction (the `switch (type)` blocks of both handlers) -/

/-- The local variables `content` / `mediaUrl` / `mediaType` / `mediaSize` /
`interactionData` produced by the extraction switch. -/
structure ExtractedContent where
  content : String
  media_url : Option String := none
  media_type : Option String := none
  media_size : Option Nat := none
  interactionData : Option InteractionData := none
deriving DecidableEq, Repr

/-- Timestamp conversion `timestamp ? new Date(parseInt(timestamp) * 1000) : <fallback>`. -/
def eventTs (timestamp : Option Nat) (fallback : Nat) : Nat :=
  match timestamp with
  | some t => t * 1000
  | none => fallback

/-- The extraction switch of the db-processor's `handleIncomingMessage`
(`src/db-processor/index.js`).  The legacy `button` case reads
`interactive.button_reply.title` for the content, so it throws a TypeError
when `interactive` (or its `button_reply`) is absent. -/
def extractContentDb (m : IncomingMsg) : Except String ExtractedContent :=
  match m.mtype with
  | "text" => .ok { content := jsOr (m.text.bind TextField.body) "" }
  | "image" =>
    .ok { content := jsOr (m.image.bind MediaField.caption) "Image message"
          media_url := m.image.bind MediaField.id
          media_type := m.image.bind MediaField.mime_type
          media_size := m.image.bind MediaField.file_size }
  | "video" =>
    .ok { content := jsOr (m.video.bind MediaField.caption) "Video message"
          media_url := m.video.bind MediaField.id
          media_type := m.video.bind MediaField.mime_type
          media_size := m.video.bind MediaField.file_size }
  | "audio" =>
    .ok { content := "Audio message"
          media_url := m.audio.bind MediaField.id
          media_type := m.audio.bind MediaField.mime_type
          media_size := m.audio.bind MediaField.file_size }
  | "document" =>
    .ok { content := jsOr (m.document.bind MediaField.caption)
                       (jsOr (m.document.bind MediaField.filename) "Document message")
          media_url := m.document.bind MediaField.id
          media_type := m.document.bind MediaField.mime_type
          media_size := m.document.bind MediaField.file_size }
  | "location" =>
    let base := "Location: " ++ jsRender (m.location.bind LocationField.latitude) ++ ", " ++
      jsRender (m.location.bind LocationField.longitude)
    let content :=
      if jsTruthy (m.location.bind LocationField.name) then
        base ++ " (" ++ (m.location.bind LocationField.name).getD "" ++ ")"
      else base
    .ok { content := content }
  | "contacts" =>
    .ok { content := "Contact: " ++
            jsOr ((m.contacts.bind List.head?).bind fun c => c.name.bind ContactName.formatted_name)
              "Contact shared" }
  | "interactive" =>
    if (m.interactive.bind InteractiveField.itype) == some "button_reply" then
      match m.interactive with
      | none => .error "TypeError"
      | some i =>
        match i.button_reply with
        | none => .error "TypeError"
        | some br =>
          .ok { content := "Button: " ++ br.title
                interactionData := some { itype := "button_reply", button_id := some br.id,
                                          button_title := some br.title } }
    else if (m.interactive.bind InteractiveField.itype) == some "list_reply" then
      match m.interactive with
      | none => .error "TypeError"
      | some i =>
        match i.list_reply with
        | none => .error "TypeError"
        | some lr =>
          .ok { content := "List: " ++ lr.title
                interactionData := some { itype := "list_reply", list_id := some lr.id,
                                          list_title := some lr.title,
                                          list_description := lr.description } }
    else .ok { content := "" }
  | "button" =>
    match m.interactive with
    | none => .error "TypeError"
    | some i =>
      match i.button_reply with
      | none => .error "TypeError"
      | some br =>
        match m.button with
        | none => .error "TypeError"
        | some b =>
          .ok { content := "Button: " ++ br.title
                interactionData := some { itype := "button_reply", button_id := b.payload,
                                          button_title := b.text } }
  | t => .ok { content := t ++ " message" }

/-- The extraction switch of the combined handler's `handleIncomingMessage`
(`src/index.js`); it has no `button` case, so a legacy button message falls
through to the default placeholder. -/
def extractContentCombined (m : IncomingMsg) : Except String ExtractedContent :=
  match m.mtype with
  | "text" => .ok { content := jsOr (m.text.bind TextField.body) "" }
  | "image" =>
    .ok { content := jsOr (m.image.bind MediaField.caption) "Image message"
          media_url := m.image.bind MediaField.id
          media_type := m.image.bind MediaField.mime_type
          media_size := m.image.bind MediaField.file_size }
  | "video" =>
    .ok { content := jsOr (m.video.bind MediaField.caption) "Video message"
          media_url := m.video.bind MediaField.id
          media_type := m.video.bind MediaField.mime_type
          media_size := m.video.bind MediaField.file_size }
  | "audio" =>
    .ok { content := "Audio message"
          media_url := m.audio.bind MediaField.id
          media_type := m.audio.bind MediaField.mime_type
          media_size := m.audio.bind MediaField.file_size }
  | "document" =>
    .ok { content := jsOr (m.document.bind MediaField.caption)
                       (jsOr (m.document.bind MediaField.filename) "Document message")
          media_url := m.document.bind MediaField.id
          media_type := m.document.bind MediaField.mime_type
          media_size := m.document.bind MediaField.file_size }
  | "location" =>
    let base := "Location: " ++ jsRender (m.location.bind LocationField.latitude) ++ ", " ++
      jsRender (m.location.bind LocationField.longitude)
    let content :=
      if jsTruthy (m.location.bind LocationField.name) then
        base ++ " (" ++ (m.location.bind LocationField.name).getD "" ++ ")"
      else base
    .ok { content := content }
  | "contacts" =>
    .ok { content := "Contact: " ++
            jsOr ((m.contacts.bind List.head?).bind fun c => c.name.bind ContactName.formatted_name)
              "Contact shared" }
  | "interactive" =>
    if (m.interactive.bind InteractiveField.itype) == some "button_reply" then
      match m.interactive with
      | none => .error "TypeError"
      | some i =>
        match i.button_reply with
        | none => .error "TypeError"
        | some br =>
          .ok { content := "Button: " ++ br.title
                interactionData := some { itype := "button_reply", button_id := some br.id,
                                          button_title := some br.title } }
    else if (m.interactive.bind InteractiveField.itype) == some "list_reply" then
      match m.interactive with
      | none => .error "TypeError"
      | some i =>
        match i.list_reply with
        | none => .error "TypeError"
        | some lr =>
          .ok { content := "List: " ++ lr.title
                interactionData := some { itype := "list_reply", list_id := some lr.id,
                                          list_title := some lr.title,
                                          list_description := lr.description } }
    else .ok { content := "" }
  | t => .ok { content := t ++ " message" }

/-- `errors.map(err => `${err.code}: ${err.title} - ${err.message || ""}`).join("; ")`. -/
def formatFailureReason (errors : List StatusError) : String :=
  String.intercalate "; "
    (errors.map fun e => toString e.code ++ ": " ++ e.title ++ " - " ++ e.message.getD "")

/-- `metadata?.phone_number_id || metadata?.display_phone_number`. -/
def toPhoneNumberOf (change : Change) : Option String :=
  let md := change.value.bind ChangeValue.metadata
  if jsTruthy (md.bind MetadataField.phone_number_id) then md.bind MetadataField.phone_number_id
  else md.bind MetadataField.display_phone_number

/-- Reply-context resolution shared by both handlers: look up `context.id`
in the messages ledger and carry the originating campaign id forward. -/
def resolveContext (db : DB) (m : IncomingMsg) : Option Nat × Option String :=
  match m.context with
  | none => (none, none)
  | some c =>
    match c.id with
    | none => (none, none)
    | some cid =>
      if cid ≠ "" then
        match Message.findByWhatsAppId db cid with
        | some om => (om.campaign_id, some cid)
        | none => (none, none)
      else (none, none)

/-! ## Batch processor (`src/db-processor/index.js`) -/

/-- Result of the db-processor's `handleMessageStatus`. -/
structure StatusHandlerResult where
  webhookEventId : Nat
  messageUpdated : Bool
  campaignAudienceUpdated : Bool
  status : String
  whatsappMessageId : String
deriving DecidableEq, Repr

/-- Result of the db-processor's `handleIncomingMessage`. -/
structure IncomingHandlerResult where
  duplicate : Bool := false
  incomingMessageId : Option Nat := none
  webhookEventId : Option Nat := none
  content : Option String := none
deriving DecidableEq, Repr

/-- Per-event outcome pushed into a change's `results` array. -/
structure EventResult where
  etype : String
  success : Bool
  error : Option String := none
deriving DecidableEq, Repr

/-- Per-SQS-record outcome pushed into the handler's `results` array. -/
structure RecordResult where
  success : Bool
  messageId : String
  error : Option String := none
deriving DecidableEq, Repr

/-- The queue envelope body published by the receiver and parsed by the
db-processor (`{ webhookPayload, metadata, receivedAt, ... }`). -/
structure Envelope where
  webhookPayload : WebhookPayload
  receivedAt : Nat
deriving DecidableEq, Repr

/-- One SQS record; `body = none` models an unparseable JSON body. -/
structure SQSRecord where
  messageId : String
  body : Option Envelope
deriving DecidableEq, Repr

namespace DbProcessor

/-- db-processor `handleMessageStatus`: create the audit row first, then
update the messages ledger, then the campaign-audience ledger (using
`updateWithFailure` whenever the event carries errors — note the JS call
passes `messageStatus` where `updateWithFailure` expects the failure
reason, and drops the remaining arguments), then mark the audit row processed. -/
def handleMessageStatus (db : DB) (s : StatusEvent) (org : OrgRow) (receivedAt : Nat) :
    StatusHandlerResult × DB :=
  let ts := eventTs s.timestamp receivedAt
  let (we, db1) := WebhookEvent.create db
    { organization_id := some org.id
      event_type := "message_status"
      whatsapp_message_id := some s.id
      status := s.status
      timestamp := ts }
  let (updMsg, db2) := Message.updateStatus db1 s.id s.status ts
  let (updCA, db3) :=
    if s.errors.length > 0 then
      CampaignAudience.updateWithFailure db2 s.id s.status
    else
      CampaignAudience.updateStatus db2 s.id s.status ts
  let db4 := WebhookEvent.markAsProcessed db3 we.id none
  ({ webhookEventId := we.id
     messageUpdated := updMsg.isSome
     campaignAudienceUpdated := updCA.isSome
     status := s.status
     whatsappMessageId := s.id }, db4)

/-- db-processor `handleIncomingMessage`: dedup check, content extraction
(which may throw), reply-context resolution, then insert the incoming
message, insert the audit row, and mark both processed.  A thrown error
leaves the store untouched (all throws happen before the first write) and
is rethrown to the per-message catch in `processWebhookChange`. -/
def handleIncomingMessage (db : DB) (m : IncomingMsg) (change : Change) (org : OrgRow)
    (receivedAt : Nat) : Except String IncomingHandlerResult × DB :=
  if IncomingMessage.isDuplicate db m.id then
    (.ok { duplicate := true }, db)
  else
    match extractContentDb m with
    | .error e => (.error e, db)
    | .ok ec =>
      let (ctxCampaign, ctxMsgId) := resolveContext db m
      let ts := eventTs m.timestamp receivedAt
      let (im, db1) := IncomingMessage.create db
        { organization_id := org.id
          whatsapp_message_id := m.id
          from_phone_number := m.from_
          to_phone_number := toPhoneNumberOf change
          message_type := m.mtype
          content := ec.content
          media_url := ec.media_url
          media_type := ec.media_type
          media_size := ec.media_size
          timestamp := ts
          interactive_type := ec.interactionData.map InteractionData.itype
          interactive_data := ec.interactionData
          context_message_id := ctxMsgId
          context_campaign_id := ctxCampaign }
      let (we, db2) := WebhookEvent.create db1
        { organization_id := some org.id
          campaign_id := ctxCampaign
          event_type := "message_received"
          whatsapp_message_id := some m.id
          from_phone_number := m.from_
          to_phone_number := toPhoneNumberOf change
          status := "received"
          timestamp := ts
          interactive_type := ec.interactionData.map InteractionData.itype
          interactive_data := ec.interactionData }
      let db3 := IncomingMessage.markAsProcessed db2 im.id
      let db4 := WebhookEvent.markAsProcessed db3 we.id none
      (.ok { incomingMessageId := some im.id
             webhookEventId := some we.id
             content := some ec.content }, db4)

/-- db-processor `processWebhookChange`: statuses then messages, each event
behind its own try/catch; reading `value.statuses` of an absent `value`
throws out of the function. -/
def processWebhookChange (db : DB) (change : Change) (org : OrgRow) (receivedAt : Nat) :
    Except String (List EventResult) × DB :=
  if change.field == "messages" then
    match change.value with
    | none => (.error "TypeError", db)
    | some v =>
      let stepStatus := fun (acc : List EventResult × DB) (s : StatusEvent) =>
        let (_, db') := handleMessageStatus acc.2 s org receivedAt
        (acc.1 ++ [{ etype := "status_update", success := true }], db')
      let (rs1, db1) := v.statuses.foldl stepStatus ([], db)
      let stepMsg := fun (acc : List EventResult × DB) (m : IncomingMsg) =>
        match handleIncomingMessage acc.2 m change org receivedAt with
        | (.ok _, db') => (acc.1 ++ [{ etype := "incoming_message", success := true }], db')
        | (.error e, db') =>
          (acc.1 ++ [{ etype := "incoming_message", success := false, error := some e }], db')
      let (rs2, db2) := v.messages.foldl stepMsg (rs1, db1)
      (.ok rs2, db2)
  else
    (.ok [], db)

/-- The change loop of `processWebhookEntry`; a throw aborts the remaining
changes but keeps the writes already made. -/
def processChangeList (org : OrgRow) (receivedAt : Nat) :
    List Change → DB → Except String (List EventResult) × DB
  | [], db => (.ok [], db)
  | c :: cs, db =>
    match processWebhookChange db c org receivedAt with
    | (.error e, db1) => (.error e, db1)
    | (.ok rs, db1) =>
      match processChangeList org receivedAt cs db1 with
      | (.error e, db2) => (.error e, db2)
      | (.ok rs', db2) => (.ok (rs ++ rs'), db2)

/-- The entry loop of `processSQSRecord`. -/
def processEntryList (org : OrgRow) (receivedAt : Nat) :
    List Entry → DB → Except String (List EventResult) × DB
  | [], db => (.ok [], db)
  | e :: es, db =>
    match processChangeList org receivedAt e.changes db with
    | (.error err, db1) => (.error err, db1)
    | (.ok rs, db1) =>
      match processEntryList org receivedAt es db1 with
      | (.error err, db2) => (.error err, db2)
      | (.ok rs', db2) => (.ok (rs ++ rs'), db2)

/-- db-processor `processSQSRecord`: parse the body, resolve the tenant from
the payload, process all entries; any error is caught and turned into a
per-record failure result carrying the record's SQS message id. -/
def processSQSRecord (db : DB) (r : SQSRecord) : RecordResult × DB :=
  match r.body with
  | none =>
    ({ success := false, messageId := r.messageId, error := some "JSON parse error" }, db)
  | some env =>
    match findOrganizationFromWebhook db.organizations env.webhookPayload with
    | none =>
      ({ success := false, messageId := r.messageId, error := some "Organization not found" }, db)
    | some org =>
      match processEntryList org env.receivedAt env.webhookPayload.entry db with
      | (.error e, db1) =>
        ({ success := false, messageId := r.messageId, error := some e }, db1)
      | (.ok _, db1) =>
        ({ success := true, messageId := r.messageId }, db1)

/-- The record loop of the batch handler: every record is processed,
failures are pushed into `results` and never abort the loop. -/
def handlerRun : DB → List SQSRecord → List RecordResult × DB
  | db, [] => ([], db)
  | db, r :: rs =>
    let (res, db1) := processSQSRecord db r
    let (ress, db2) := handlerRun db1 rs
    (res :: ress, db2)

/-- The batch handler's return value. -/
structure HandlerResult where
  statusCode : Nat
  processedRecords : Nat
  successfulRecords : Nat
  failedRecords : Nat
  results : List RecordResult
deriving DecidableEq, Repr

/-- The exported SQS batch `handler`. -/
def handler (db : DB) (records : List SQSRecord) : HandlerResult × DB :=
  let (results, db') := handlerRun db records
  ({ statusCode := 200
     processedRecords := results.length
     successfulRecords := (results.filter fun r => r.success).length
     failedRecords := (results.filter fun r => !r.success).length
     results := results }, db')

/-- A change neither of whose accesses throws: `value` is present whenever
the field is `"messages"`. -/
def changeWellFormed (c : Change) : Bool :=
  c.field != "messages" || c.value.isSome

/-- No change of the payload throws while being processed. -/
def entriesWellFormed (p : WebhookPayload) : Bool :=
  p.entry.all fun e => e.changes.all changeWellFormed

/-- Whether an individual record processes successfully, as a function of
the record and the (read-only) organizations table alone. -/
def recordSucceeds (orgs : List OrgRow) (r : SQSRecord) : Bool :=
  match r.body with
  | none => false
  | some env =>
    match findOrganizationFromWebhook orgs env.webhookPayload with
    | none => false
    | some _ => entriesWellFormed env.webhookPayload

end DbProcessor

/-! ## Signature verification (HMAC-SHA256 header check)

The HMAC itself is kept abstract as a function `hmacHex : secret → payload →
hex digest`; theorems assume only that it produces 64 lowercase hex
characters, which `crypto.createHmac(...).digest("hex")` guarantees. -/

/-- Value of one hex digit, as accepted by Node's hex decoder. -/
def hexDigitVal (c : Char) : Option Nat :=
  if 48 ≤ c.toNat && c.toNat ≤ 57 then some (c.toNat - 48)
  else if 97 ≤ c.toNat && c.toNat ≤ 102 then some (c.toNat - 87)
  else if 65 ≤ c.toNat && c.toNat ≤ 70 then some (c.toNat - 55)
  else none

/-- `Buffer.from(s, "hex")`: decode byte pairs greedily, stopping (silently)
at the first character pair that is not valid hex. -/
def bufferFromHex : List Char → List Nat
  | c1 :: c2 :: rest =>
    match hexDigitVal c1, hexDigitVal c2 with
    | some hi, some lo => (hi * 16 + lo) :: bufferFromHex rest
    | _, _ => []
  | _ => []

/-- `crypto.timingSafeEqual`: throws a RangeError when the buffers have
different lengths, otherwise compares contents. -/
def timingSafeEqual (a b : List Nat) : Except String Bool :=
  if a.length ≠ b.length then .error "RangeError" else .ok (a == b)

/-- `String.prototype.replace(pat, "")` with a string pattern: remove the
first occurrence only. -/
def replaceFirstChars (pat : List Char) : List Char → List Char
  | [] => []
  | c :: cs =>
    if pat.isPrefixOf (c :: cs) then (c :: cs).drop pat.length
    else c :: replaceFirstChars pat cs

/-- Remove the first occurrence of `pat` from `s`. -/
def replaceFirst (s pat : String) : String :=
  ⟨replaceFirstChars pat.data s.data⟩

/-- `verifyWebhookSignature` of `src/index.js`: missing header → false;
compute the expected digest, drop the first `sha256=` occurrence from the
presented header, hex-decode both and compare timing-safely; any exception
(in particular the length-mismatch RangeError) is caught and yields false. -/
def verifyWebhookSignature (hmacHex : String → String → String)
    (payload : String) (signature : Option String) (secret : String) : Bool :=
  match signature with
  | none => false
  | some sig =>
    let expectedSignature := hmacHex secret payload
    let receivedSignature := replaceFirst sig "sha256="
    match timingSafeEqual (bufferFromHex expectedSignature.data)
        (bufferFromHex receivedSignature.data) with
    | .ok b => b
    | .error _ => false

namespace Receiver

/-- `verifyWebhookSignature` of the receiver lambda: same check with an
anchored `/^sha256=/` strip. -/
def verifyWebhookSignature (hmacHex : String → String → String)
    (payload : String) (signature : Option String) (secret : String) : Bool :=
  match signature with
  | none => false
  | some sig =>
    let cleanSignature := if "sha256=".isPrefixOf sig then sig.drop 7 else sig
    let expectedSignature := hmacHex secret payload
    match timingSafeEqual (bufferFromHex cleanSignature.data)
        (bufferFromHex expectedSignature.data) with
    | .ok b => b
    | .error _ => false

end Receiver

/-! ## HTTP shapes shared by the receiver and combined lambdas -/

/-- Response body: the echoed challenge, a JSON error object, or a JSON
success object. -/
inductive RespBody where
  | text (s : String)
  | jsonError (error : String)
  | jsonSuccess
deriving DecidableEq, Repr

structure HttpResponse where
  statusCode : Nat
  body : RespBody
deriving DecidableEq, Repr

/-- An API-gateway POST event: raw body string, its parse (`none` when the
body is not valid JSON), and the signature header. -/
structure ApiEvent where
  rawBody : String
  body : Option WebhookPayload
  signatureHeader : Option String
  receivedAt : Nat
deriving DecidableEq, Repr

/-- The message published to SQS by the receiver. -/
structure QueueMsg where
  webhookPayload : WebhookPayload
  receivedAt : Nat
deriving DecidableEq, Repr

namespace Receiver

/-- The receiver lambda's `handleWebhookEvent`: parse, resolve the tenant
from the payload, (conditionally) verify the signature, and publish the
envelope to SQS; a tenant-resolution miss returns 403 without enqueueing. -/
def handleWebhookEvent (hmacHex : String → String → String) (orgs : List OrgRow)
    (ev : ApiEvent) : HttpResponse × List QueueMsg :=
  match ev.body with
  | none => ({ statusCode := 500, body := .jsonError "Failed to process webhook" }, [])
  | some payload =>
    match findOrganizationFromWebhook orgs payload with
    | none => ({ statusCode := 403, body := .jsonError "Organization not found" }, [])
    | some org =>
      if jsTruthy org.whatsapp_app_secret &&
          !(Receiver.verifyWebhookSignature hmacHex ev.rawBody ev.signatureHeader
              (org.whatsapp_app_secret.getD "")) then
        ({ statusCode := 403, body := .jsonError "Invalid signature" }, [])
      else
        ({ statusCode := 200, body := .jsonSuccess },
         [{ webhookPayload := payload, receivedAt := ev.receivedAt }])

end Receiver

/-! ## Combined single-lambda handler (`src/index.js`) -/

namespace Combined

/-- Combined `handleMessageStatus`: audit row first; a failed status with
errors routes both ledgers through the failure updates with the
semicolon-joined reason, otherwise both take the plain status update. -/
def handleMessageStatus (db : DB) (s : StatusEvent) (org : OrgRow) : DB :=
  let ts := eventTs s.timestamp db.now
  let (we, db1) := WebhookEvent.create db
    { organization_id := some org.id
      event_type := "message_status"
      whatsapp_message_id := some s.id
      status := s.status
      timestamp := ts }
  if s.status == "failed" && s.errors.length > 0 then
    let failureReason := formatFailureReason s.errors
    let (_, db2) := Message.updateWithFailure db1 s.id failureReason
    let (_, db3) := CampaignAudience.updateWithFailure db2 s.id failureReason
    WebhookEvent.markAsProcessed db3 we.id none
  else
    let (_, db2) := Message.updateStatus db1 s.id s.status ts
    let (_, db3) := CampaignAudience.updateStatus db2 s.id s.status ts
    WebhookEvent.markAsProcessed db3 we.id none

/-- Combined `handleIncomingMessage`: like the db-processor's, but the
extraction switch has no `button` case and every error is caught and
swallowed (returned as `{ success: false }` without rethrowing). -/
def handleIncomingMessage (db : DB) (m : IncomingMsg) (change : Change) (org : OrgRow) : DB :=
  if IncomingMessage.isDuplicate db m.id then db
  else
    match extractContentCombined m with
    | .error _ => db
    | .ok ec =>
      let (ctxCampaign, ctxMsgId) := resolveContext db m
      let ts := eventTs m.timestamp db.now
      let (im, db1) := IncomingMessage.create db
        { organization_id := org.id
          whatsapp_message_id := m.id
          from_phone_number := m.from_
          to_phone_number := toPhoneNumberOf change
          message_type := m.mtype
          content := ec.content
          media_url := ec.media_url
          media_type := ec.media_type
          media_size := ec.media_size
          timestamp := ts
          interactive_type := ec.interactionData.map InteractionData.itype
          interactive_data := ec.interactionData
          context_message_id := ctxMsgId
          context_campaign_id := ctxCampaign }
      let (we, db2) := WebhookEvent.create db1
        { organization_id := some org.id
          campaign_id := ctxCampaign
          event_type := "message_received"
          whatsapp_message_id := some m.id
          from_phone_number := m.from_
          to_phone_number := toPhoneNumberOf change
          status := "received"
          timestamp := ts
          interactive_type := ec.interactionData.map InteractionData.itype
          interactive_data := ec.interactionData }
      let db3 := IncomingMessage.markAsProcessed db2 im.id
      WebhookEvent.markAsProcessed db3 we.id none

/-- Combined `processWebhookChange`: statuses then messages, with no
per-event catch; an absent `value` under field `"messages"` throws. -/
def processWebhookChange (db : DB) (change : Change) (org : OrgRow) :
    Except String Unit × DB :=
  if change.field == "messages" then
    match change.value with
    | none => (.error "TypeError", db)
    | some v =>
      let db1 := v.statuses.foldl (fun acc s => handleMessageStatus acc s org) db
      let db2 := v.messages.foldl (fun acc m => handleIncomingMessage acc m change org) db1
      (.ok (), db2)
  else
    (.ok (), db)

/-- The change loop of the combined `processWebhookEntry`. -/
def processChangeList (org : OrgRow) : List Change → DB → Except String Unit × DB
  | [], db => (.ok (), db)
  | c :: cs, db =>
    match processWebhookChange db c org with
    | (.error e, db1) => (.error e, db1)
    | (.ok _, db1) => processChangeList org cs db1

/-- The entry loop of the combined `handleWebhook`. -/
def processEntryList (org : OrgRow) : List Entry → DB → Except String Unit × DB
  | [], db => (.ok (), db)
  | e :: es, db =>
    match processChangeList org e.changes db with
    | (.error err, db1) => (.error err, db1)
    | (.ok _, db1) => processEntryList org es db1

/-- Combined `handleWebhook` (POST path of `src/index.js`): extract
organization info from the payload, look the tenant up only when **both**
identifier fields are present, 403 when no tenant was found, then verify
the signature and process the entries. -/
def handleWebhook (db : DB) (envDefaultSecret : Option String)
    (hmacHex : String → String → String) (ev : ApiEvent) : HttpResponse × DB :=
  match ev.body with
  | none => ({ statusCode := 500, body := .jsonError "Failed to process webhook" }, db)
  | some payload =>
    let orgInfo := Organization.extractOrganizationFromWebhook payload
    let organization : Option OrgRow :=
      match orgInfo with
      | some info =>
        if jsTruthy info.businessAccountId && jsTruthy info.phoneNumberId then
          Organization.findByWhatsAppBusinessAccountId db.organizations
            (info.businessAccountId.getD "")
        else none
      | none => none
    match organization with
    | none =>
      ({ statusCode := 403, body := .jsonError "Organization not found or not configured" }, db)
    | some org =>
      let webhookSecret := jsOr org.whatsapp_app_secret (jsOr envDefaultSecret "default_secret")
      if webhookSecret != "default_secret" &&
          !(verifyWebhookSignature hmacHex ev.rawBody ev.signatureHeader webhookSecret) then
        ({ statusCode := 403, body := .jsonError "Invalid signature" }, db)
      else
        match processEntryList org payload.entry db with
        | (.error _, db1) =>
          ({ statusCode := 500, body := .jsonError "Failed to process webhook" }, db1)
        | (.ok _, db1) => ({ statusCode := 200, body := .jsonSuccess }, db1)

end Combined

/-! ## Specification helpers and concrete fixtures -/

/-- Whether an `Except` result is a success. -/
def isOkE {α : Type} : Except String α → Bool
  | .ok _ => true
  | .error _ => false

/-- The writes performed between two database states (suffix of the log). -/
def newOps (db db' : DB) : List DbOp :=
  db'.log.drop db.log.length

/-- Number of incoming-message rows recorded for a provider message id. -/
def countIncoming (db : DB) (wamid : String) : Nat :=
  db.incoming_messages.countP fun r => r.whatsapp_message_id == wamid

/-- One application of the db-processor's incoming-message reconciler,
viewed as a state transformer. -/
def stepIncoming (m : IncomingMsg) (change : Change) (org : OrgRow) (receivedAt : Nat)
    (db : DB) : DB :=
  (DbProcessor.handleIncomingMessage db m change org receivedAt).2

/-- Audience rows of a campaign currently in a given state. -/
def countStatus (db : DB) (cid : Nat) (s : String) : Nat :=
  ((db.campaign_audience.filter fun r => r.campaign_id == cid).filter
    fun r => r.message_status == s).length

/-- The campaign's counters agree with fresh counts over its audience rows. -/
def statsInv (db : DB) (cid : Nat) : Prop :=
  ∀ c ∈ db.campaigns, c.id = cid →
    c.total_targeted_audience = (db.campaign_audience.filter fun r => r.campaign_id == cid).length ∧
    c.total_sent = countStatus db cid "sent" ∧
    c.total_delivered = countStatus db cid "delivered" ∧
    c.total_read = countStatus db cid "read" ∧
    c.total_failed = countStatus db cid "failed"

/-- The expected per-record outcome of the batch handler, as a function of
the record and the read-only organizations table alone. -/
def DbProcessor.recordOutcome (orgs : List OrgRow) (r : SQSRecord) : RecordResult :=
  match r.body with
  | none => { success := false, messageId := r.messageId, error := some "JSON parse error" }
  | some env =>
    match findOrganizationFromWebhook orgs env.webhookPayload with
    | none => { success := false, messageId := r.messageId, error := some "Organization not found" }
    | some _ =>
      if DbProcessor.entriesWellFormed env.webhookPayload then
        { success := true, messageId := r.messageId }
      else
        { success := false, messageId := r.messageId, error := some "TypeError" }

/-- A lowercase hex digit (or decimal digit) character. -/
def validLowerHexChar (c : Char) : Bool :=
  (48 ≤ c.toNat && c.toNat ≤ 57) || (97 ≤ c.toNat && c.toNat ≤ 102)

/-- A 64-character lowercase hex string — the shape of every
`crypto.createHmac("sha256", _).digest("hex")` result. -/
def validLowerHex64 (s : String) : Bool :=
  (s.data.length == 64) && s.data.all validLowerHexChar

/-- A fixed 64-character hex string, standing in for a concrete digest. -/
def hex64a : String := ⟨List.replicate 64 'a'⟩

/-- A provider message with only the common fields populated. -/
def baseMsg : IncomingMsg :=
  { id := "wamid-1", from_ := some "15550001", timestamp := some 5, mtype := "text",
    text := none, image := none, video := none, audio := none, document := none,
    location := none, contacts := none, interactive := none, button := none, context := none }

/-- A legacy `button`-type message, as the provider sends it: a `button`
object with `payload`/`text`, and no `interactive` object. -/
def exButtonMsg : IncomingMsg :=
  { baseMsg with mtype := "button",
                 button := some { payload := some "PAY", text := some "TXT" } }

/-- An empty store. -/
def emptyDB : DB :=
  { organizations := [], messages := [], campaign_audience := [], campaigns := [],
    incoming_messages := [], webhook_events := [], nextId := 1, now := 999, log := [] }

/-- An active tenant. -/
def exOrg : OrgRow :=
  { id := 7, name := "Acme", status := "active",
    whatsapp_business_account_id := some "BA1",
    whatsapp_phone_number_id := some "PN1",
    whatsapp_webhook_verify_token := some "tok",
    whatsapp_app_secret := none }

/-- A delivery payload whose first entry carries the given account id and a
single delivered status. -/
def mkStatusPayload (ba : String) : WebhookPayload :=
  { entry := [{ id := some ba,
                changes := [{ field := "messages",
                              value := some { metadata := some { phone_number_id := some "PN1",
                                                                 display_phone_number := none }
                                              statuses := [{ id := "m1", status := "delivered",
                                                             timestamp := some 4, errors := [] }]
                                              messages := [] } }] }] }

/-- A change carrying one incoming message. -/
def exChange : Change :=
  { field := "messages",
    value := some { metadata := some { phone_number_id := some "PN1",
                                       display_phone_number := none }
                    statuses := []
                    messages := [baseMsg] } }

/-- Store with the single active tenant configured. -/
def exDb : DB := { emptyDB with organizations := [exOrg] }

/-- Store with one outbound ledger row `m1` (campaign 3), its audience row, and
the parent campaign row. -/
def exLedgerDb : DB :=
  { exDb with
    messages := [{ whatsapp_message_id := "m1", campaign_id := some 3,
                   message_status := "sent", sent_at := some 1, delivered_at := none,
                   read_at := none, failed_at := none, failure_reason := none }]
    campaign_audience := [{ id := 11, campaign_id := 3, whatsapp_message_id := some "m1",
                            message_status := "sent", sent_at := some 1, delivered_at := none,
                            read_at := none, failed_at := none, failure_reason := none }]
    campaigns := [{ id := 3, total_targeted_audience := 0, total_sent := 0,
                    total_delivered := 0, total_read := 0, total_failed := 0 }] }

/-- A `failed` status event for `m1` with one error entry. -/
def exFailedEvent : StatusEvent :=
  { id := "m1", status := "failed", timestamp := some 9,
    errors := [{ code := 131026, title := "Undeliverable", message := some "blocked" }] }

/-- A POST event carrying the status payload for tenant `BA1`. -/
def exApiEvent : ApiEvent :=
  { rawBody := "raw", body := some (mkStatusPayload "BA1"), signatureHeader := none,
    receivedAt := 77 }

/-- The spec's isolation scenario: a batch of five records whose third is
malformed. -/
def exBatch : List SQSRecord :=
  [{ messageId := "rec1", body := some { webhookPayload := mkStatusPayload "BA1", receivedAt := 500 } },
   { messageId := "rec2", body := some { webhookPayload := mkStatusPayload "BA1", receivedAt := 500 } },
   { messageId := "rec3", body := none },
   { messageId := "rec4", body := some { webhookPayload := mkStatusPayload "BA1", receivedAt := 500 } },
   { messageId := "rec5", body := some { webhookPayload := mkStatusPayload "BA1", receivedAt := 500 } }]

/-! ## Helper lemmas about the mutators -/

theorem Message.updateStatus_messages (db : DB) (w s : String) (t : Nat) :
    ((Message.updateStatus db w s t).2).messages =
      db.messages.map
        (fun r => if r.whatsapp_message_id == w then Message.applyStatus s t r else r) := rfl

theorem Message.updateWithFailure_messages (db : DB) (w fr : String) :
    ((Message.updateWithFailure db w fr).2).messages =
      db.messages.map
        (fun r => if r.whatsapp_message_id == w then
            { r with message_status := "failed", failure_reason := some fr,
                     failed_at := some db.now }
          else r) := rfl

theorem CampaignAudience.updateCampaignStats_rows (db : DB) (cid : Nat) :
    (CampaignAudience.updateCampaignStats db cid).campaign_audience = db.campaign_audience := rfl

theorem CampaignAudience.updateStatus_rows (db : DB) (w s : String) (t : Nat) :
    ((CampaignAudience.updateStatus db w s t).2).campaign_audience =
      db.campaign_audience.map
        (fun r => if r.whatsapp_message_id == some w then CampaignAudience.applyStatus s t r
          else r) := by
  unfold CampaignAudience.updateStatus
  cases hm : List.find? (fun r => r.whatsapp_message_id == some w) db.campaign_audience <;>
    simp [hm, CampaignAudience.updateCampaignStats]

theorem CampaignAudience.updateWithFailure_rows (db : DB) (w fr : String) :
    ((CampaignAudience.updateWithFailure db w fr).2).campaign_audience =
      db.campaign_audience.map
        (fun r => if r.whatsapp_message_id == some w then
            { r with message_status := "failed", failure_reason := some fr,
                     failed_at := some db.now }
          else r) := by
  unfold CampaignAudience.updateWithFailure
  cases hm : List.find? (fun r => r.whatsapp_message_id == some w) db.campaign_audience <;>
    simp [hm, CampaignAudience.updateCampaignStats]

theorem WebhookEvent.create_messages (db : DB) (d : WebhookEventData) :
    ((WebhookEvent.create db d).2).messages = db.messages := rfl

theorem WebhookEvent.create_campaign_audience (db : DB) (d : WebhookEventData) :
    ((WebhookEvent.create db d).2).campaign_audience = db.campaign_audience := rfl

theorem WebhookEvent.create_now (db : DB) (d : WebhookEventData) :
    ((WebhookEvent.create db d).2).now = db.now := rfl

theorem WebhookEvent.markAsProcessed_messages (db : DB) (id : Nat) (e : Option String) :
    (WebhookEvent.markAsProcessed db id e).messages = db.messages := rfl

theorem WebhookEvent.markAsProcessed_campaign_audience (db : DB) (id : Nat) (e : Option String) :
    (WebhookEvent.markAsProcessed db id e).campaign_audience = db.campaign_audience := rfl

theorem Message.updateStatus_campaign_audience (db : DB) (w s : String) (t : Nat) :
    ((Message.updateStatus db w s t).2).campaign_audience = db.campaign_audience := rfl

theorem Message.updateStatus_now (db : DB) (w s : String) (t : Nat) :
    ((Message.updateStatus db w s t).2).now = db.now := rfl

theorem Message.updateWithFailure_campaign_audience (db : DB) (w fr : String) :
    ((Message.updateWithFailure db w fr).2).campaign_audience = db.campaign_audience := rfl

theorem Message.updateWithFailure_now (db : DB) (w fr : String) :
    ((Message.updateWithFailure db w fr).2).now = db.now := rfl

theorem ca_updateStatus_messages (db : DB) (w s : String) (t : Nat) :
    ((CampaignAudience.updateStatus db w s t).2).messages = db.messages := by
  unfold CampaignAudience.updateStatus
  cases hm : List.find? (fun r => r.whatsapp_message_id == some w) db.campaign_audience <;>
    simp [hm, CampaignAudience.updateCampaignStats]

theorem ca_updateWithFailure_messages (db : DB) (w fr : String) :
    ((CampaignAudience.updateWithFailure db w fr).2).messages = db.messages := by
  unfold CampaignAudience.updateWithFailure
  cases hm : List.find? (fun r => r.whatsapp_message_id == some w) db.campaign_audience <;>
    simp [hm, CampaignAudience.updateCampaignStats]

theorem ca_updateStatus_now (db : DB) (w s : String) (t : Nat) :
    ((CampaignAudience.updateStatus db w s t).2).now = db.now := by
  unfold CampaignAudience.updateStatus
  cases hm : List.find? (fun r => r.whatsapp_message_id == some w) db.campaign_audience <;>
    simp [hm, CampaignAudience.updateCampaignStats]

theorem ca_updateWithFailure_now (db : DB) (w fr : String) :
    ((CampaignAudience.updateWithFailure db w fr).2).now = db.now := by
  unfold CampaignAudience.updateWithFailure
  cases hm : List.find? (fun r => r.whatsapp_message_id == some w) db.campaign_audience <;>
    simp [hm, CampaignAudience.updateCampaignStats]

theorem Message.applyStatus_read (t : Nat) (r : MessageRow) :
    Message.applyStatus "read" t r = { r with message_status := "read", read_at := some t } := rfl

theorem Message.applyStatus_delivered (t : Nat) (r : MessageRow) :
    Message.applyStatus "delivered" t r =
      { r with message_status := "delivered", delivered_at := some t } := rfl

theorem ca_applyStatus_read (t : Nat) (r : CampaignAudienceRow) :
    CampaignAudience.applyStatus "read" t r =
      { r with message_status := "read", read_at := some t } := rfl

theorem ca_applyStatus_delivered (t : Nat) (r : CampaignAudienceRow) :
    CampaignAudience.applyStatus "delivered" t r =
      { r with message_status := "delivered", delivered_at := some t } := rfl

/-- C5 (counterexample): starting from a ledger whose row `m1` is `sent`,
processing `read` (event time 5) and then `delivered` (event time 7) through
`Message.updateStatus` records both timestamps but leaves the final
lifecycle status `delivered`, not `read` as the claim states. -/
theorem read_before_delivered_counterexample :
    ((Message.updateStatus (Message.updateStatus exLedgerDb "m1" "read" 5).2
        "m1" "delivered" 7).2).messages =
      [{ whatsapp_message_id := "m1", campaign_id := some 3,
         message_status := "delivered", sent_at := some 1, delivered_at := some 7,
         read_at := some 5, failed_at := none, failure_reason := none }] ∧
    (((Message.updateStatus (Message.updateStatus exLedgerDb "m1" "read" 5).2
        "m1" "delivered" 7).2).messages.map MessageRow.message_status = ["read"]) = False := by
  constructor
  · decide
  · decide

/-- C5 (amended): when a `read` status is applied before a `delivered`
status for the same provider message id, every matched row of both ledgers
ends with `read_at` and `delivered_at` recorded in their dedicated columns
and final lifecycle status `delivered` (last write wins). -/
theorem status_read_before_delivered (db : DB) (wamid : String) (t1 t2 : Nat) :
    (∀ r ∈ ((Message.updateStatus (Message.updateStatus db wamid "read" t1).2
        wamid "delivered" t2).2).messages,
      r.whatsapp_message_id = wamid →
        r.read_at = some t1 ∧ r.delivered_at = some t2 ∧ r.message_status = "delivered") ∧
    (∀ r ∈ ((CampaignAudience.updateStatus (CampaignAudience.updateStatus db wamid "read" t1).2
        wamid "delivered" t2).2).campaign_audience,
      r.whatsapp_message_id = some wamid →
        r.read_at = some t1 ∧ r.delivered_at = some t2 ∧ r.message_status = "delivered") := by
  constructor
  · intro r hr hid
    rw [Message.updateStatus_messages, Message.updateStatus_messages, List.map_map] at hr
    obtain ⟨r0, _, rfl⟩ := List.mem_map.1 hr
    by_cases h0 : r0.whatsapp_message_id = wamid
    · simp [h0, Message.applyStatus_read, Message.applyStatus_delivered]
    · have h0' : (r0.whatsapp_message_id == wamid) = false := by simpa using h0
      simp only [Function.comp_apply, h0', Bool.false_eq_true, if_false] at hid
      exact absurd hid h0
  · intro r hr hid
    rw [CampaignAudience.updateStatus_rows, CampaignAudience.updateStatus_rows,
      List.map_map] at hr
    obtain ⟨r0, _, rfl⟩ := List.mem_map.1 hr
    by_cases h0 : r0.whatsapp_message_id = some wamid
    · simp [h0, ca_applyStatus_read, ca_applyStatus_delivered]
    · have h0' : (r0.whatsapp_message_id == some wamid) = false := by simpa using h0
      simp only [Function.comp_apply, h0', Bool.false_eq_true, if_false] at hid
      exact absurd hid h0

/-- C5 (witness): the amended theorem applied to the concrete ledger. -/
theorem status_read_before_delivered_witness :
    ({ whatsapp_message_id := "m1", campaign_id := some 3,
       message_status := "delivered", sent_at := some 1, delivered_at := some 7,
       read_at := some 5, failed_at := none, failure_reason := none } : MessageRow).read_at =
        some 5 ∧
    ({ whatsapp_message_id := "m1", campaign_id := some 3,
       message_status := "delivered", sent_at := some 1, delivered_at := some 7,
       read_at := some 5, failed_at := none, failure_reason := none } : MessageRow).delivered_at =
        some 7 ∧
    ({ whatsapp_message_id := "m1", campaign_id := some 3,
       message_status := "delivered", sent_at := some 1, delivered_at := some 7,
       read_at := some 5, failed_at := none, failure_reason := none } : MessageRow).message_status =
        "delivered" :=
  (status_read_before_delivered exLedgerDb "m1" 5 7).1
    { whatsapp_message_id := "m1", campaign_id := some 3,
      message_status := "delivered", sent_at := some 1, delivered_at := some 7,
      read_at := some 5, failed_at := none, failure_reason := none }
    (by decide) (by decide)

/-- C7: on a legacy `button`-type message carrying `button.payload`/`button.text`
and (as the provider sends it) no `interactive` object, the db-processor's
extraction switch throws a TypeError (its `button` case reads
`interactive.button_reply.title` for the content), and the combined
handler's switch — which has no `button` case at all — falls through to the
generic placeholder instead of the structured button_reply shape. -/
theorem legacy_button_extraction_bug :
    extractContentDb exButtonMsg = .error "TypeError" ∧
    extractContentCombined exButtonMsg = .ok { content := "button message" } ∧
    exButtonMsg.button = some { payload := some "PAY", text := some "TXT" } ∧
    exButtonMsg.interactive = none := by
  refine ⟨by rfl, by rfl, by decide, by decide⟩

/-- C6 (counterexample): a `failed` status event for `m1` with one error
entry (`131026: Undeliverable - blocked`), processed by the db-processor's
`handleMessageStatus`, writes the literal status string `"failed"` — not the
semicolon-joined `code: title - message` concatenation — as the
campaign-audience failure reason, and writes no failure reason at all to
the messages ledger. -/
theorem db_failure_reason_counterexample :
    ((DbProcessor.handleMessageStatus exLedgerDb exFailedEvent exOrg 500).2).campaign_audience.map
        CampaignAudienceRow.failure_reason = [some "failed"] ∧
    ((DbProcessor.handleMessageStatus exLedgerDb exFailedEvent exOrg 500).2).messages.map
        MessageRow.failure_reason = [none] ∧
    formatFailureReason exFailedEvent.errors = "131026: Undeliverable - blocked" ∧
    (some "failed" = some (formatFailureReason exFailedEvent.errors)) = False := by
  refine ⟨by decide, by decide, by decide, by decide⟩

theorem Message.applyStatus_failure_reason (s : String) (t : Nat) (r : MessageRow) :
    (Message.applyStatus s t r).failure_reason = r.failure_reason := by
  unfold Message.applyStatus
  split_ifs <;> rfl

theorem Combined.handleMessageStatus_failed_messages (db : DB) (s : StatusEvent) (org : OrgRow)
    (h : (s.status == "failed" && decide (s.errors.length > 0)) = true) :
    (Combined.handleMessageStatus db s org).messages =
      db.messages.map
        (fun r => if r.whatsapp_message_id == s.id then
            { r with message_status := "failed",
                     failure_reason := some (formatFailureReason s.errors),
                     failed_at := some db.now }
          else r) := by
  unfold Combined.handleMessageStatus
  simp [h, WebhookEvent.markAsProcessed_messages, ca_updateWithFailure_messages,
    Message.updateWithFailure_messages, WebhookEvent.create, WebhookEvent.create_now]

theorem Combined.handleMessageStatus_failed_audience (db : DB) (s : StatusEvent) (org : OrgRow)
    (h : (s.status == "failed" && decide (s.errors.length > 0)) = true) :
    (Combined.handleMessageStatus db s org).campaign_audience =
      db.campaign_audience.map
        (fun r => if r.whatsapp_message_id == some s.id then
            { r with message_status := "failed",
                     failure_reason := some (formatFailureReason s.errors),
                     failed_at := some db.now }
          else r) := by
  unfold Combined.handleMessageStatus
  simp [h, WebhookEvent.markAsProcessed_campaign_audience,
    CampaignAudience.updateWithFailure_rows, Message.updateWithFailure_campaign_audience,
    Message.updateWithFailure_now, WebhookEvent.create]

theorem DbProcessor.handleMessageStatus_errors_audience (db : DB) (s : StatusEvent)
    (org : OrgRow) (ra : Nat) (he : 0 < s.errors.length) :
    (((DbProcessor.handleMessageStatus db s org ra).2)).campaign_audience =
      db.campaign_audience.map
        (fun r => if r.whatsapp_message_id == some s.id then
            { r with message_status := "failed",
                     failure_reason := some s.status,
                     failed_at := some db.now }
          else r) := by
  unfold DbProcessor.handleMessageStatus
  simp [he, WebhookEvent.markAsProcessed_campaign_audience,
    CampaignAudience.updateWithFailure_rows, Message.updateStatus_campaign_audience,
    Message.updateStatus_now, WebhookEvent.create]

theorem DbProcessor.handleMessageStatus_messages_failure_reason (db : DB) (s : StatusEvent)
    (org : OrgRow) (ra : Nat) :
    (((DbProcessor.handleMessageStatus db s org ra).2)).messages.map MessageRow.failure_reason =
      db.messages.map MessageRow.failure_reason := by
  unfold DbProcessor.handleMessageStatus
  split
  · simp only [WebhookEvent.markAsProcessed_messages,
      ca_updateWithFailure_messages, Message.updateStatus_messages,
      WebhookEvent.create_messages, List.map_map]
    refine List.map_congr_left ?_
    intro r _
    by_cases h0 : (r.whatsapp_message_id == s.id) = true <;>
      simp [Function.comp, h0, Message.applyStatus_failure_reason]
  · simp only [WebhookEvent.markAsProcessed_messages, ca_updateStatus_messages,
      Message.updateStatus_messages, WebhookEvent.create_messages, List.map_map]
    refine List.map_congr_left ?_
    intro r _
    by_cases h0 : (r.whatsapp_message_id == s.id) = true <;>
      simp [Function.comp, h0, Message.applyStatus_failure_reason]

/-- C6 (amended): for a `failed` status event with a non-empty errors array,
the combined handler (`src/index.js`) writes the semicolon-joined
`code: title - message` concatenation of all error entries as the failure
reason of every matched row in both the message ledger and the
campaign-audience ledger; the batch processor (`src/db-processor/index.js`)
instead writes the literal status string as the campaign-audience failure
reason and records no failure reason in the message ledger. -/
theorem failed_status_failure_reason (db : DB) (s : StatusEvent) (org : OrgRow) (ra : Nat)
    (hs : s.status = "failed") (he : s.errors ≠ []) :
    (∀ r ∈ (Combined.handleMessageStatus db s org).messages,
      r.whatsapp_message_id = s.id →
        r.failure_reason = some (formatFailureReason s.errors) ∧
        r.message_status = "failed") ∧
    (∀ r ∈ (Combined.handleMessageStatus db s org).campaign_audience,
      r.whatsapp_message_id = some s.id →
        r.failure_reason = some (formatFailureReason s.errors) ∧
        r.message_status = "failed") ∧
    (∀ r ∈ ((DbProcessor.handleMessageStatus db s org ra).2).campaign_audience,
      r.whatsapp_message_id = some s.id → r.failure_reason = some s.status) ∧
    ((DbProcessor.handleMessageStatus db s org ra).2).messages.map MessageRow.failure_reason =
      db.messages.map MessageRow.failure_reason := by
  have hlen : 0 < s.errors.length := List.length_pos.mpr he
  have hcond : (s.status == "failed" && decide (s.errors.length > 0)) = true := by
    simp [hs, hlen]
  refine ⟨?_, ?_, ?_, DbProcessor.handleMessageStatus_messages_failure_reason db s org ra⟩
  · intro r hr hid
    rw [Combined.handleMessageStatus_failed_messages db s org hcond] at hr
    obtain ⟨r0, _, rfl⟩ := List.mem_map.1 hr
    by_cases h0 : (r0.whatsapp_message_id == s.id) = true
    · simp [h0]
    · simp only [h0, Bool.false_eq_true, if_false] at hid ⊢
      exact absurd hid (by simpa using h0)
  · intro r hr hid
    rw [Combined.handleMessageStatus_failed_audience db s org hcond] at hr
    obtain ⟨r0, _, rfl⟩ := List.mem_map.1 hr
    by_cases h0 : (r0.whatsapp_message_id == some s.id) = true
    · simp [h0]
    · simp only [h0, Bool.false_eq_true, if_false] at hid ⊢
      exact absurd hid (by simpa using h0)
  · intro r hr hid
    rw [DbProcessor.handleMessageStatus_errors_audience db s org ra hlen] at hr
    obtain ⟨r0, _, rfl⟩ := List.mem_map.1 hr
    by_cases h0 : (r0.whatsapp_message_id == some s.id) = true
    · simp [h0]
    · simp only [h0, Bool.false_eq_true, if_false] at hid ⊢
      exact absurd hid (by simpa using h0)

/-- C6 (witness): the amended theorem applied to the concrete ledger and the
concrete failed event. -/
theorem failed_status_failure_reason_witness :
    ((DbProcessor.handleMessageStatus exLedgerDb exFailedEvent exOrg 500).2).messages.map
        MessageRow.failure_reason = exLedgerDb.messages.map MessageRow.failure_reason :=
  (failed_status_failure_reason exLedgerDb exFailedEvent exOrg 500 (by decide)
    (by decide)).2.2.2

/-- C8 (counterexample): processing a concrete non-duplicate incoming
message, the first write is the `incoming_messages` insert; the audit
(webhook_events) row is only created second, so the AuditRecord is not
created before the reconciliation write for incoming-message events. -/
theorem incoming_audit_order_counterexample :
    newOps exDb ((DbProcessor.handleIncomingMessage exDb baseMsg exChange exOrg 500).2) =
      [.incomingMessagesInsert 1, .webhookEventsInsert 2,
       .incomingMessagesMarkProcessed 1, .webhookEventsMarkProcessed 2] ∧
    ((newOps exDb
        ((DbProcessor.handleIncomingMessage exDb baseMsg exChange exOrg 500).2)).head?.map
      DbOp.isAuditInsert) = some false := by
  refine ⟨by decide, by decide⟩

/-- C8 (amended): for every status event the batch processor's first write
is the audit-record insert (before any ledger write); for every incoming
message the writes are either none at all (duplicate, or an extraction
throw before any write) or exactly: the incoming-message insert, then the
audit-record insert, then the two processed-flag updates — so for incoming
messages a reconciliation write precedes the audit record. -/
theorem audit_record_write_order (db : DB) (s : StatusEvent) (m : IncomingMsg)
    (change : Change) (org : OrgRow) (ra : Nat) :
    (newOps db ((DbProcessor.handleMessageStatus db s org ra).2)).head? =
      some (.webhookEventsInsert db.nextId) ∧
    (newOps db ((DbProcessor.handleIncomingMessage db m change org ra).2) = [] ∨
     ∃ i j, newOps db ((DbProcessor.handleIncomingMessage db m change org ra).2) =
       [.incomingMessagesInsert i, .webhookEventsInsert j,
        .incomingMessagesMarkProcessed i, .webhookEventsMarkProcessed j]) := by
  constructor
  · unfold newOps DbProcessor.handleMessageStatus WebhookEvent.create
      WebhookEvent.markAsProcessed Message.updateStatus CampaignAudience.updateStatus
      CampaignAudience.updateWithFailure CampaignAudience.updateCampaignStats
    dsimp only
    split <;> split <;> simp [List.append_assoc, List.drop_left]
  · unfold DbProcessor.handleIncomingMessage
    split
    · left
      simp [newOps, List.drop_length]
    · split
      · left
        simp [newOps, List.drop_length]
      · right
        refine ⟨db.nextId, db.nextId + 1, ?_⟩
        cases hrc : resolveContext db m with
        | mk a b =>
          unfold newOps IncomingMessage.create IncomingMessage.markAsProcessed
            WebhookEvent.create WebhookEvent.markAsProcessed
          simp [hrc, List.append_assoc, List.drop_left]

theorem DbProcessor.handleIncomingMessage_duplicate (db : DB) (m : IncomingMsg)
    (change : Change) (org : OrgRow) (ra : Nat)
    (hd : IncomingMessage.isDuplicate db m.id = true) :
    DbProcessor.handleIncomingMessage db m change org ra = (.ok { duplicate := true }, db) := by
  unfold DbProcessor.handleIncomingMessage
  simp [hd]

theorem DbProcessor.handleIncomingMessage_extract_error (db : DB) (m : IncomingMsg)
    (change : Change) (org : OrgRow) (ra : Nat) (e : String)
    (hd : IncomingMessage.isDuplicate db m.id = false)
    (he : extractContentDb m = .error e) :
    DbProcessor.handleIncomingMessage db m change org ra = (.error e, db) := by
  unfold DbProcessor.handleIncomingMessage
  simp [hd, he]

theorem stepIncoming_creates (m : IncomingMsg) (change : Change) (org : OrgRow) (ra : Nat)
    (db : DB) (ec : ExtractedContent)
    (hd : IncomingMessage.isDuplicate db m.id = false)
    (he : extractContentDb m = .ok ec) :
    IncomingMessage.isDuplicate (stepIncoming m change org ra db) m.id = true := by
  cases hrc : resolveContext db m with
  | mk a b =>
    unfold stepIncoming DbProcessor.handleIncomingMessage
    simp only [hd, Bool.false_eq_true, if_false, he, hrc]
    simp [IncomingMessage.isDuplicate, IncomingMessage.create, IncomingMessage.markAsProcessed,
      WebhookEvent.create, WebhookEvent.markAsProcessed, List.any_map, Function.comp]

theorem stepIncoming_idem (m : IncomingMsg) (change : Change) (org : OrgRow) (ra : Nat)
    (db : DB) :
    stepIncoming m change org ra (stepIncoming m change org ra db) =
      stepIncoming m change org ra db := by
  by_cases hd : IncomingMessage.isDuplicate db m.id = true
  · have h1 : stepIncoming m change org ra db = db := by
      unfold stepIncoming
      rw [DbProcessor.handleIncomingMessage_duplicate db m change org ra hd]
    rw [h1]
    exact h1
  · replace hd : IncomingMessage.isDuplicate db m.id = false := by
      simpa using hd
    cases he : extractContentDb m with
    | error e =>
      have h1 : stepIncoming m change org ra db = db := by
        unfold stepIncoming
        rw [DbProcessor.handleIncomingMessage_extract_error db m change org ra e hd he]
      rw [h1]
      exact h1
    | ok ec =>
      have h2 := stepIncoming_creates m change org ra db ec hd he
      show (DbProcessor.handleIncomingMessage (stepIncoming m change org ra db)
        m change org ra).2 = stepIncoming m change org ra db
      rw [DbProcessor.handleIncomingMessage_duplicate _ m change org ra h2]

theorem stepIncoming_count (m : IncomingMsg) (change : Change) (org : OrgRow) (ra : Nat)
    (db : DB) (ec : ExtractedContent)
    (hd : IncomingMessage.isDuplicate db m.id = false)
    (he : extractContentDb m = .ok ec) :
    countIncoming (stepIncoming m change org ra db) m.id = countIncoming db m.id + 1 := by
  cases hrc : resolveContext db m with
  | mk a b =>
    unfold stepIncoming DbProcessor.handleIncomingMessage
    simp only [hd, Bool.false_eq_true, if_false, he, hrc]
    simp [countIncoming, IncomingMessage.create, IncomingMessage.markAsProcessed,
      WebhookEvent.create, WebhookEvent.markAsProcessed, List.countP_map, List.countP_append,
      Function.comp]
    refine List.countP_congr ?_
    intro r _
    by_cases h0 : r.id = db.nextId <;> simp [h0]

/-- C4: an incoming message whose provider message id already has a row is
answered with the successful `duplicate` no-op result and an unchanged
store; consequently applying the reconciler N ≥ 1 times for the same
message leaves exactly the state of the first application, and a
successful first application records exactly one additional row for that
provider message id. -/
theorem incoming_message_dedup_idempotent (db : DB) (m : IncomingMsg) (change : Change)
    (org : OrgRow) (ra : Nat) :
    (IncomingMessage.isDuplicate db m.id = true →
      DbProcessor.handleIncomingMessage db m change org ra = (.ok { duplicate := true }, db)) ∧
    (∀ n : Nat, 1 ≤ n →
      (stepIncoming m change org ra)^[n] db = stepIncoming m change org ra db) ∧
    (IncomingMessage.isDuplicate db m.id = false →
      isOkE (DbProcessor.handleIncomingMessage db m change org ra).1 = true →
      countIncoming (stepIncoming m change org ra db) m.id = countIncoming db m.id + 1) := by
  refine ⟨DbProcessor.handleIncomingMessage_duplicate db m change org ra, ?_, ?_⟩
  · intro n hn
    induction n with
    | zero => omega
    | succ k ih =>
      rcases Nat.eq_or_lt_of_le hn with h1 | h1
      · rw [← h1]
        exact Function.iterate_one _ ▸ rfl
      · have hk : 1 ≤ k := by omega
        rw [Function.iterate_succ_apply', ih hk]
        exact stepIncoming_idem m change org ra db
  · intro hd hok
    cases he : extractContentDb m with
    | error e =>
      rw [DbProcessor.handleIncomingMessage_extract_error db m change org ra e hd he] at hok
      simp [isOkE] at hok
    | ok ec => exact stepIncoming_count m change org ra db ec hd he

/-- C4 (witness): the dedup theorem applied to the concrete store, message
and change: the first application records exactly one row. -/
theorem incoming_message_dedup_idempotent_witness :
    countIncoming (stepIncoming baseMsg exChange exOrg 500 exDb) baseMsg.id =
      countIncoming exDb baseMsg.id + 1 :=
  (incoming_message_dedup_idempotent exDb baseMsg exChange exOrg 500).2.2 (by decide) (by decide)

theorem jsTruthy_iff (x : Option String) : jsTruthy x = true ↔ ∃ s, x = some s ∧ s ≠ "" := by
  cases x <;> simp [jsTruthy]

/-- C3: `Organization.extractOrganizationFromWebhook` returns null or an
object with exactly one of `businessAccountId` / `phoneNumberId` set, never
both; since the combined handler only performs its tenant lookup when both
are present, every parsed POST delivery request is answered with the 403
"Organization not found or not configured" response, whatever the store
contains, and the store is left untouched. -/
theorem combined_delivery_always_forbidden :
    (∀ (p : WebhookPayload) (info : Organization.OrgInfo),
      Organization.extractOrganizationFromWebhook p = some info →
        (info.businessAccountId = none ∨ info.phoneNumberId = none) ∧
        (info.businessAccountId ≠ none ∨ info.phoneNumberId ≠ none)) ∧
    (∀ (db : DB) (envd : Option String) (hmacHex : String → String → String)
      (ev : ApiEvent) (p : WebhookPayload), ev.body = some p →
        Combined.handleWebhook db envd hmacHex ev =
          ({ statusCode := 403,
             body := .jsonError "Organization not found or not configured" }, db)) := by
  have hA : ∀ (p : WebhookPayload) (info : Organization.OrgInfo),
      Organization.extractOrganizationFromWebhook p = some info →
        (info.businessAccountId = none ∨ info.phoneNumberId = none) ∧
        (info.businessAccountId ≠ none ∨ info.phoneNumberId ≠ none) := by
    intro p info h
    unfold Organization.extractOrganizationFromWebhook at h
    repeat' split at h
    all_goals simp_all [jsTruthy_iff]
    all_goals obtain ⟨s, hs, hs'⟩ := ‹∃ s, _ = some s ∧ ¬s = ""›
    all_goals subst h
    all_goals simp [hs]
  refine ⟨hA, ?_⟩
  intro db envd hmacHex ev p hb
  unfold Combined.handleWebhook
  rw [hb]
  cases hx : Organization.extractOrganizationFromWebhook p with
  | none => simp [hx]
  | some info =>
    obtain ⟨hor, _⟩ := hA p info hx
    have hcond : (jsTruthy info.businessAccountId && jsTruthy info.phoneNumberId) = false := by
      rcases hor with h | h <;> simp [h, jsTruthy]
    simp [hx, hcond]

/-- C3 (witness): the theorem applied to a parsed delivery payload carrying
the configured tenant's account id — still 403. -/
theorem combined_delivery_always_forbidden_witness :
    Combined.handleWebhook exDb none (fun _ _ => hex64a) exApiEvent =
      ({ statusCode := 403,
         body := .jsonError "Organization not found or not configured" }, exDb) :=
  combined_delivery_always_forbidden.2 exDb none (fun _ _ => hex64a) exApiEvent
    (mkStatusPayload "BA1") rfl

theorem findOrganization_split (orgs : List OrgRow) (p : WebhookPayload) :
    (∀ o, lookupByBusinessAccount orgs p = some o →
      findOrganizationFromWebhook orgs p = some o) ∧
    (lookupByBusinessAccount orgs p = none →
      findOrganizationFromWebhook orgs p = lookupByPhoneNumber orgs p) := by
  unfold findOrganizationFromWebhook lookupByBusinessAccount lookupByPhoneNumber
  cases hp : p.entry.head? with
  | none => simp
  | some e =>
    cases hid : e.id with
    | none => simp [hid]
    | some a =>
      by_cases ha : a = ""
      · simp [hid, ha]
      · cases hfind : Organization.findByWhatsAppBusinessAccountId orgs a <;>
          simp [hid, ha, hfind]

/-- C2: the batch-processor/receiver tenant resolution tries the first
entry's account id against active tenants and falls back to the first
change's metadata phone-number id (also active-only); a payload carrying
either identifier of an active tenant resolves and is never answered with
the 403 "Organization not found" response, while a payload matching no
active tenant gets exactly that 403 with nothing enqueued. -/
theorem tenant_resolution_fallback_forbidden (hmacHex : String → String → String)
    (orgs : List OrgRow) (ev : ApiEvent) (p : WebhookPayload) (hb : ev.body = some p) :
    (∀ o, lookupByBusinessAccount orgs p = some o →
      findOrganizationFromWebhook orgs p = some o) ∧
    (lookupByBusinessAccount orgs p = none →
      findOrganizationFromWebhook orgs p = lookupByPhoneNumber orgs p) ∧
    ((lookupByBusinessAccount orgs p).isSome = true ∨
        (lookupByPhoneNumber orgs p).isSome = true →
      (findOrganizationFromWebhook orgs p).isSome = true ∧
      (Receiver.handleWebhookEvent hmacHex orgs ev).1 ≠
        { statusCode := 403, body := .jsonError "Organization not found" }) ∧
    (findOrganizationFromWebhook orgs p = none →
      Receiver.handleWebhookEvent hmacHex orgs ev =
        ({ statusCode := 403, body := .jsonError "Organization not found" }, [])) := by
  have hsplit := findOrganization_split orgs p
  refine ⟨hsplit.1, hsplit.2, ?_, ?_⟩
  · intro hor
    have hsome : (findOrganizationFromWebhook orgs p).isSome = true := by
      rcases hor with h | h
      · obtain ⟨o, ho⟩ := Option.isSome_iff_exists.1 h
        simp [hsplit.1 o ho]
      · cases hba : lookupByBusinessAccount orgs p with
        | some o => simp [hsplit.1 o hba]
        | none => rw [hsplit.2 hba]; exact h
    refine ⟨hsome, ?_⟩
    obtain ⟨org, horg⟩ := Option.isSome_iff_exists.1 hsome
    unfold Receiver.handleWebhookEvent
    simp only [hb, horg]
    split <;> simp
  · intro hnone
    unfold Receiver.handleWebhookEvent
    simp [hb, hnone]

/-- C2 (witness): a payload carrying the configured active tenant's account
id resolves and is not rejected with the 403 "Organization not found"
response. -/
theorem tenant_resolution_fallback_forbidden_witness :
    (findOrganizationFromWebhook [exOrg] (mkStatusPayload "BA1")).isSome = true ∧
    (Receiver.handleWebhookEvent (fun _ _ => hex64a) [exOrg] exApiEvent).1 ≠
      { statusCode := 403, body := .jsonError "Organization not found" } :=
  (tenant_resolution_fallback_forbidden (fun _ _ => hex64a) [exOrg] exApiEvent
    (mkStatusPayload "BA1") rfl).2.2.1 (Or.inl (by decide))

theorem updateCampaignStats_statsInv (db : DB) (cid : Nat) :
    statsInv (CampaignAudience.updateCampaignStats db cid) cid := by
  intro c hc hcid
  unfold CampaignAudience.updateCampaignStats at hc
  simp only at hc
  obtain ⟨c0, hc0, rfl⟩ := List.mem_map.1 hc
  by_cases h0 : c0.id = cid
  · simp [h0, statsInv, countStatus, CampaignAudience.updateCampaignStats]
  · simp [h0] at hcid

/-- C10: whenever a campaign-audience status or failure update matches a
row, the parent campaign's five aggregate counters in the resulting store
equal fresh counts over all campaign_audience rows of that campaign (e.g.
`total_delivered` equals the number of rows now in `delivered` state) —
they are recomputed, not incremented. -/
theorem campaign_stats_recomputed (db : DB) (wamid status : String) (ts : Nat) :
    (∀ row, (CampaignAudience.updateStatus db wamid status ts).1 = some row →
      statsInv ((CampaignAudience.updateStatus db wamid status ts).2) row.campaign_id) ∧
    (∀ fr row, (CampaignAudience.updateWithFailure db wamid fr).1 = some row →
      statsInv ((CampaignAudience.updateWithFailure db wamid fr).2) row.campaign_id) := by
  constructor
  · intro row hrow
    unfold CampaignAudience.updateStatus at hrow ⊢
    cases hm : List.find? (fun r => r.whatsapp_message_id == some wamid) db.campaign_audience with
    | none => simp [hm] at hrow
    | some r0 =>
      simp only [hm, Option.map_some] at hrow ⊢
      obtain rfl : CampaignAudience.applyStatus status ts r0 = row := by simpa using hrow
      exact updateCampaignStats_statsInv _ _
  · intro fr row hrow
    unfold CampaignAudience.updateWithFailure at hrow ⊢
    cases hm : List.find? (fun r => r.whatsapp_message_id == some wamid) db.campaign_audience with
    | none => simp [hm] at hrow
    | some r0 =>
      simp only [hm, Option.map_some] at hrow ⊢
      obtain rfl := Option.some.inj hrow
      exact updateCampaignStats_statsInv _ _

/-- C10 (witness): the theorem applied to the concrete ledger: after a
delivered update that matched row m1, campaign 3's counters equal fresh
counts. -/
theorem campaign_stats_recomputed_witness :
    statsInv ((CampaignAudience.updateStatus exLedgerDb "m1" "delivered" 42).2) 3 :=
  (campaign_stats_recomputed exLedgerDb "m1" "delivered" 42).1
    { id := 11, campaign_id := 3, whatsapp_message_id := some "m1",
      message_status := "delivered", sent_at := some 1, delivered_at := some 42,
      read_at := none, failed_at := none, failure_reason := none }
    (by decide)

theorem charToNat_inj (c d : Char) (h : c.toNat = d.toNat) : c = d :=
  Char.eq_of_val_eq (UInt32.toNat.inj h)

theorem validLowerHexChar_val (c : Char) (h : validLowerHexChar c = true) :
    ∃ v, hexDigitVal c = some v ∧
      ((v ≤ 9 ∧ v + 48 = c.toNat) ∨ (10 ≤ v ∧ v ≤ 15 ∧ v + 87 = c.toNat)) := by
  unfold validLowerHexChar at h
  simp only [Bool.or_eq_true, Bool.and_eq_true, decide_eq_true_eq] at h
  rcases h with ⟨h1, h2⟩ | ⟨h1, h2⟩
  · refine ⟨c.toNat - 48, ?_, Or.inl (by omega)⟩
    unfold hexDigitVal
    simp [h1, h2]
  · refine ⟨c.toNat - 87, ?_, Or.inr (by omega)⟩
    unfold hexDigitVal
    rw [if_neg (by simp only [Bool.and_eq_true, decide_eq_true_eq]; omega),
      if_pos (by simp only [Bool.and_eq_true, decide_eq_true_eq]; omega)]

theorem hexChar_lower_inj (c1 c2 : Char) (h1 : validLowerHexChar c1 = true)
    (h2 : validLowerHexChar c2 = true) (hv : hexDigitVal c1 = hexDigitVal c2) : c1 = c2 := by
  obtain ⟨v1, hv1, hr1⟩ := validLowerHexChar_val c1 h1
  obtain ⟨v2, hv2, hr2⟩ := validLowerHexChar_val c2 h2
  rw [hv1, hv2] at hv
  obtain rfl : v1 = v2 := by simpa using hv
  apply charToNat_inj
  rcases hr1 with ⟨ha1, hb1⟩ | ⟨ha1, hb1, hc1⟩ <;> rcases hr2 with ⟨ha2, hb2⟩ | ⟨ha2, hb2, hc2⟩ <;>
    omega

theorem hexDigitVal_lt (c : Char) (v : Nat) (h : validLowerHexChar c = true)
    (hv : hexDigitVal c = some v) : v < 16 := by
  obtain ⟨w, hw, hr⟩ := validLowerHexChar_val c h
  rw [hw] at hv
  obtain rfl : w = v := by simpa using hv
  rcases hr with ⟨h1, _⟩ | ⟨h1, h2, _⟩ <;> omega

theorem bufferFromHex_length (n : Nat) : ∀ l : List Char, l.length = 2 * n →
    l.all validLowerHexChar = true → (bufferFromHex l).length = n := by
  induction n with
  | zero =>
    intro l hl _
    obtain rfl : l = [] := List.length_eq_zero.1 (by omega)
    rfl
  | succ k ih =>
    intro l hl hall
    match l, hl with
    | c1 :: c2 :: rest, hl =>
      have hrl : rest.length = 2 * k := by
        simp only [List.length_cons] at hl
        omega
      simp only [List.all_cons, Bool.and_eq_true] at hall
      obtain ⟨hv1, hv2, hrest⟩ := hall
      obtain ⟨w1, hw1, _⟩ := validLowerHexChar_val c1 hv1
      obtain ⟨w2, hw2, _⟩ := validLowerHexChar_val c2 hv2
      unfold bufferFromHex
      rw [hw1, hw2]
      simp only [List.length_cons]
      rw [ih rest hrl hrest]

theorem bufferFromHex_inj (n : Nat) : ∀ l1 l2 : List Char, l1.length = 2 * n →
    l2.length = 2 * n → l1.all validLowerHexChar = true → l2.all validLowerHexChar = true →
    bufferFromHex l1 = bufferFromHex l2 → l1 = l2 := by
  induction n with
  | zero =>
    intro l1 l2 h1 h2 _ _ _
    obtain rfl : l1 = [] := List.length_eq_zero.1 (by omega)
    obtain rfl : l2 = [] := List.length_eq_zero.1 (by omega)
    rfl
  | succ k ih =>
    intro l1 l2 h1 h2 ha1 ha2 he
    match l1, l2, h1, h2 with
    | c1 :: c2 :: r1, d1 :: d2 :: r2, h1, h2 =>
      have hrl1 : r1.length = 2 * k := by
        simp only [List.length_cons] at h1
        omega
      have hrl2 : r2.length = 2 * k := by
        simp only [List.length_cons] at h2
        omega
      simp only [List.all_cons, Bool.and_eq_true] at ha1 ha2
      obtain ⟨hvc1, hvc2, hr1⟩ := ha1
      obtain ⟨hvd1, hvd2, hr2⟩ := ha2
      obtain ⟨w1, hw1, _⟩ := validLowerHexChar_val c1 hvc1
      obtain ⟨w2, hw2, _⟩ := validLowerHexChar_val c2 hvc2
      obtain ⟨u1, hu1, _⟩ := validLowerHexChar_val d1 hvd1
      obtain ⟨u2, hu2, _⟩ := validLowerHexChar_val d2 hvd2
      unfold bufferFromHex at he
      rw [hw1, hw2, hu1, hu2] at he
      simp only [List.cons.injEq] at he
      obtain ⟨hbyte, htail⟩ := he
      have hw2lt := hexDigitVal_lt c2 w2 hvc2 hw2
      have hu2lt := hexDigitVal_lt d2 u2 hvd2 hu2
      have hww : w1 = u1 ∧ w2 = u2 := by omega
      have e1 : c1 = d1 := hexChar_lower_inj c1 d1 hvc1 hvd1 (by rw [hw1, hu1, hww.1])
      have e2 : c2 = d2 := hexChar_lower_inj c2 d2 hvc2 hvd2 (by rw [hw2, hu2, hww.2])
      have e3 : r1 = r2 := ih r1 r2 hrl1 hrl2 hr1 hr2 htail
      rw [e1, e2, e3]

theorem String.eq_of_data_eq (s t : String) (h : s.data = t.data) : s = t := by
  cases s; cases t; exact congrArg String.mk h

theorem validLowerHex64_spec (s : String) (h : validLowerHex64 s = true) :
    s.data.length = 64 ∧ s.data.all validLowerHexChar = true := by
  unfold validLowerHex64 at h
  simp only [Bool.and_eq_true, beq_iff_eq] at h
  exact ⟨h.1, h.2⟩

theorem bufferFromHex_len32 (s : String) (h : validLowerHex64 s = true) :
    (bufferFromHex s.data).length = 32 := by
  obtain ⟨h1, h2⟩ := validLowerHex64_spec s h
  exact bufferFromHex_length 32 s.data (by omega) h2

theorem bufferFromHex_inj64 (s1 s2 : String) (h1 : validLowerHex64 s1 = true)
    (h2 : validLowerHex64 s2 = true) (he : bufferFromHex s1.data = bufferFromHex s2.data) :
    s1 = s2 := by
  obtain ⟨ha1, hb1⟩ := validLowerHex64_spec s1 h1
  obtain ⟨ha2, hb2⟩ := validLowerHex64_spec s2 h2
  exact String.eq_of_data_eq s1 s2
    (bufferFromHex_inj 32 s1.data s2.data (by omega) (by omega) hb1 hb2 he)

theorem replaceFirstChars_self (pat rest : List Char) (h : pat ≠ []) :
    replaceFirstChars pat (pat ++ rest) = rest := by
  cases pat with
  | nil => exact absurd rfl h
  | cons c cs =>
    show replaceFirstChars (c :: cs) ((c :: cs) ++ rest) = rest
    rw [List.cons_append, replaceFirstChars]
    rw [if_pos (show (c :: cs).isPrefixOf (c :: (cs ++ rest)) = true by
      show (c :: cs).isPrefixOf ((c :: cs) ++ rest) = true
      simp [List.isPrefixOf_iff_prefix])]
    show List.drop (c :: cs).length ((c :: cs) ++ rest) = rest
    exact List.drop_left (c :: cs) rest

theorem replaceFirst_sha256 (d : String) :
    replaceFirst ("sha256=" ++ d) "sha256=" = d := by
  unfold replaceFirst
  apply String.eq_of_data_eq
  show (replaceFirstChars "sha256=".data ("sha256=" ++ d).data) = d.data
  rw [String.data_append]
  exact replaceFirstChars_self "sha256=".data d.data (by decide)

/-- C9 (counterexample): with any digest function, a header consisting of
the correct digest followed by trailing garbage (`sha256=<digest>zz`) is
malformed hex, yet the verifier accepts it: Node's hex decoder stops at the
first invalid character, so the decoded bytes match the expected digest
exactly. The claim says malformed hex always yields false. -/
theorem signature_trailing_garbage_counterexample :
    verifyWebhookSignature (fun _ _ => hex64a) "body"
        (some ("sha256=" ++ hex64a ++ "zz")) "sec" = true ∧
    (hex64a ++ "zz").data.all validLowerHexChar = false := by
  refine ⟨by decide, by decide⟩

/-- C9 (amended): a missing header yields false; a header whose presented
digest does not hex-decode (under Node's truncating decoder) to exactly the
digest length yields false (the RangeError of `timingSafeEqual` is caught
inside the function, so no exception escapes); and for a header
`sha256=<64 hex chars>` the verifier strips the scheme prefix and returns
true exactly when the presented digest equals the expected HMAC digest —
but a well-formed digest followed by trailing garbage is also accepted. -/
theorem signature_verifier_spec (hmacHex : String → String → String)
    (H : ∀ s p, validLowerHex64 (hmacHex s p) = true) (payload secret : String) :
    (verifyWebhookSignature hmacHex payload none secret = false) ∧
    (∀ sig : String, (bufferFromHex (replaceFirst sig "sha256=").data).length ≠ 32 →
      verifyWebhookSignature hmacHex payload (some sig) secret = false) ∧
    (∀ d : String, validLowerHex64 d = true →
      (verifyWebhookSignature hmacHex payload (some ("sha256=" ++ d)) secret = true ↔
        d = hmacHex secret payload)) := by
  have hexp : (bufferFromHex (hmacHex secret payload).data).length = 32 :=
    bufferFromHex_len32 _ (H secret payload)
  refine ⟨rfl, ?_, ?_⟩
  · intro sig hlen
    show (match timingSafeEqual (bufferFromHex (hmacHex secret payload).data)
        (bufferFromHex (replaceFirst sig "sha256=").data) with
      | .ok b => b
      | .error _ => false) = false
    have ht : timingSafeEqual (bufferFromHex (hmacHex secret payload).data)
        (bufferFromHex (replaceFirst sig "sha256=").data) = .error "RangeError" := by
      unfold timingSafeEqual
      rw [if_pos (by omega)]
    rw [ht]
  · intro d hd
    have hdlen : (bufferFromHex d.data).length = 32 := bufferFromHex_len32 _ hd
    show (match timingSafeEqual (bufferFromHex (hmacHex secret payload).data)
        (bufferFromHex (replaceFirst ("sha256=" ++ d) "sha256=").data) with
      | .ok b => b
      | .error _ => false) = true ↔ d = hmacHex secret payload
    rw [replaceFirst_sha256 d]
    have ht : timingSafeEqual (bufferFromHex (hmacHex secret payload).data)
        (bufferFromHex d.data) =
        .ok (bufferFromHex (hmacHex secret payload).data == bufferFromHex d.data) := by
      unfold timingSafeEqual
      rw [if_neg (by omega)]
    rw [ht]
    show (bufferFromHex (hmacHex secret payload).data == bufferFromHex d.data) = true ↔
      d = hmacHex secret payload
    constructor
    · intro h
      have hb : bufferFromHex (hmacHex secret payload).data = bufferFromHex d.data := by
        simpa [beq_iff_eq] using h
      exact bufferFromHex_inj64 d (hmacHex secret payload) hd (H secret payload) hb.symm
    · intro h
      subst h
      simp

/-- C9 (witness): the amended theorem applied to a concrete digest
function, payload and secret: a correctly-presented digest verifies. -/
theorem signature_verifier_spec_witness :
    verifyWebhookSignature (fun _ _ => hex64a) "body" (some ("sha256=" ++ hex64a)) "sec" =
        true ↔
      hex64a = (fun _ _ => hex64a : String → String → String) "sec" "body" :=
  (signature_verifier_spec (fun _ _ => hex64a)
    (fun _ _ => (by decide : validLowerHex64 hex64a = true)) "body" "sec").2.2
    hex64a (by decide)

theorem foldl_proj_const {σ β γ : Type} (step : σ → β → σ) (proj : σ → γ)
    (h : ∀ s b, proj (step s b) = proj s) :
    ∀ (l : List β) (s : σ), proj (l.foldl step s) = proj s := by
  intro l
  induction l with
  | nil => intro s; rfl
  | cons b t ih =>
    intro s
    rw [List.foldl_cons, ih, h]

theorem WebhookEvent.create_organizations (db : DB) (d : WebhookEventData) :
    ((WebhookEvent.create db d).2).organizations = db.organizations := rfl

theorem WebhookEvent.markAsProcessed_organizations (db : DB) (id : Nat) (e : Option String) :
    (WebhookEvent.markAsProcessed db id e).organizations = db.organizations := rfl

theorem Message.updateStatus_organizations (db : DB) (w s : String) (t : Nat) :
    ((Message.updateStatus db w s t).2).organizations = db.organizations := rfl

theorem Message.updateWithFailure_organizations (db : DB) (w fr : String) :
    ((Message.updateWithFailure db w fr).2).organizations = db.organizations := rfl

theorem ca_updateStatus_organizations (db : DB) (w s : String) (t : Nat) :
    ((CampaignAudience.updateStatus db w s t).2).organizations = db.organizations := by
  unfold CampaignAudience.updateStatus
  cases hm : List.find? (fun r => r.whatsapp_message_id == some w) db.campaign_audience <;>
    simp [hm, CampaignAudience.updateCampaignStats]

theorem ca_updateWithFailure_organizations (db : DB) (w fr : String) :
    ((CampaignAudience.updateWithFailure db w fr).2).organizations = db.organizations := by
  unfold CampaignAudience.updateWithFailure
  cases hm : List.find? (fun r => r.whatsapp_message_id == some w) db.campaign_audience <;>
    simp [hm, CampaignAudience.updateCampaignStats]

theorem im_create_organizations (db : DB) (d : IncomingMessageData) :
    ((IncomingMessage.create db d).2).organizations = db.organizations := rfl

theorem im_markAsProcessed_organizations (db : DB) (id : Nat) :
    (IncomingMessage.markAsProcessed db id).organizations = db.organizations := rfl

theorem DbProcessor.handleMessageStatus_organizations (db : DB) (s : StatusEvent)
    (org : OrgRow) (ra : Nat) :
    (((DbProcessor.handleMessageStatus db s org ra).2)).organizations = db.organizations := by
  unfold DbProcessor.handleMessageStatus
  split <;>
    simp [WebhookEvent.markAsProcessed_organizations,
      ca_updateWithFailure_organizations,
      ca_updateStatus_organizations, Message.updateStatus_organizations,
      WebhookEvent.create_organizations]

theorem DbProcessor.handleIncomingMessage_organizations (db : DB) (m : IncomingMsg)
    (change : Change) (org : OrgRow) (ra : Nat) :
    (((DbProcessor.handleIncomingMessage db m change org ra).2)).organizations =
      db.organizations := by
  unfold DbProcessor.handleIncomingMessage
  split
  · rfl
  · split
    · rfl
    · cases hrc : resolveContext db m with
      | mk a b =>
        simp [hrc, WebhookEvent.markAsProcessed_organizations,
          im_markAsProcessed_organizations, WebhookEvent.create_organizations,
          im_create_organizations]

theorem DbProcessor.processWebhookChange_organizations (db : DB) (c : Change) (org : OrgRow)
    (ra : Nat) :
    (((DbProcessor.processWebhookChange db c org ra).2)).organizations = db.organizations := by
  unfold DbProcessor.processWebhookChange
  split
  · split
    · rfl
    · refine Eq.trans
        (foldl_proj_const _ (fun p : List EventResult × DB => p.2.organizations) ?_ _ _)
        (foldl_proj_const _ (fun p : List EventResult × DB => p.2.organizations) ?_ _ ([], db))
      · intro s b
        cases hi : DbProcessor.handleIncomingMessage s.2 b c org ra with
        | mk e db' =>
          have h := DbProcessor.handleIncomingMessage_organizations s.2 b c org ra
          rw [hi] at h
          cases e <;> simpa [hi] using h
      · intro s b
        exact DbProcessor.handleMessageStatus_organizations s.2 b org ra
  · rfl

theorem DbProcessor.processChangeList_organizations (org : OrgRow) (ra : Nat) :
    ∀ (cs : List Change) (db : DB),
      (((DbProcessor.processChangeList org ra cs db).2)).organizations = db.organizations := by
  intro cs
  induction cs with
  | nil => intro db; rfl
  | cons c t ih =>
    intro db
    unfold DbProcessor.processChangeList
    cases hpc : DbProcessor.processWebhookChange db c org ra with
    | mk e db1 =>
      have h1 : db1.organizations = db.organizations := by
        have := DbProcessor.processWebhookChange_organizations db c org ra
        rw [hpc] at this
        exact this
      cases e with
      | error er => simpa using h1
      | ok rs =>
        cases hpl : DbProcessor.processChangeList org ra t db1 with
        | mk e2 db2 =>
          have h2 : db2.organizations = db1.organizations := by
            have := ih db1
            rw [hpl] at this
            exact this
          cases e2 <;> simp [hpl, h2, h1]

theorem DbProcessor.processEntryList_organizations (org : OrgRow) (ra : Nat) :
    ∀ (es : List Entry) (db : DB),
      (((DbProcessor.processEntryList org ra es db).2)).organizations = db.organizations := by
  intro es
  induction es with
  | nil => intro db; rfl
  | cons e t ih =>
    intro db
    unfold DbProcessor.processEntryList
    cases hpc : DbProcessor.processChangeList org ra e.changes db with
    | mk r db1 =>
      have h1 : db1.organizations = db.organizations := by
        have := DbProcessor.processChangeList_organizations org ra e.changes db
        rw [hpc] at this
        exact this
      cases r with
      | error er => simpa using h1
      | ok rs =>
        cases hpl : DbProcessor.processEntryList org ra t db1 with
        | mk r2 db2 =>
          have h2 : db2.organizations = db1.organizations := by
            have := ih db1
            rw [hpl] at this
            exact this
          cases r2 <;> simp [hpl, h2, h1]

theorem DbProcessor.processSQSRecord_organizations (db : DB) (r : SQSRecord) :
    (((DbProcessor.processSQSRecord db r).2)).organizations = db.organizations := by
  unfold DbProcessor.processSQSRecord
  split
  · rfl
  · rename_i env heq
    split
    · rfl
    · rename_i org horg
      cases hpl : DbProcessor.processEntryList org env.receivedAt env.webhookPayload.entry db with
      | mk r2 db1 =>
        have h1 : db1.organizations = db.organizations := by
          have := DbProcessor.processEntryList_organizations org env.receivedAt
            env.webhookPayload.entry db
          rw [hpl] at this
          exact this
        cases r2 <;> simpa [hpl] using h1

theorem DbProcessor.processWebhookChange_fst_ok (db : DB) (c : Change) (org : OrgRow)
    (ra : Nat) (h : DbProcessor.changeWellFormed c = true) :
    ∃ rs, (DbProcessor.processWebhookChange db c org ra).1 = .ok rs := by
  unfold DbProcessor.changeWellFormed at h
  unfold DbProcessor.processWebhookChange
  by_cases hf : (c.field == "messages") = true
  · simp only [hf, if_true]
    cases hv : c.value with
    | none => simp [hf, hv, bne] at h
    | some v => exact ⟨_, rfl⟩
  · simp only [hf, Bool.false_eq_true, if_false]
    exact ⟨[], rfl⟩

theorem DbProcessor.processWebhookChange_fst_error (db : DB) (c : Change) (org : OrgRow)
    (ra : Nat) (h : DbProcessor.changeWellFormed c = false) :
    (DbProcessor.processWebhookChange db c org ra).1 = .error "TypeError" := by
  unfold DbProcessor.changeWellFormed at h
  simp only [Bool.or_eq_false_iff, bne_eq_false_iff_eq] at h
  have hv : c.value = none := Option.not_isSome_iff_eq_none.1 (by simp [h.2])
  unfold DbProcessor.processWebhookChange
  rw [if_pos (by simp [h.1]), hv]

theorem DbProcessor.processChangeList_fst_ok (org : OrgRow) (ra : Nat) :
    ∀ (cs : List Change) (db : DB), cs.all DbProcessor.changeWellFormed = true →
      ∃ rs, (DbProcessor.processChangeList org ra cs db).1 = .ok rs := by
  intro cs
  induction cs with
  | nil => intro db _; exact ⟨[], rfl⟩
  | cons c t ih =>
    intro db hall
    simp only [List.all_cons, Bool.and_eq_true] at hall
    unfold DbProcessor.processChangeList
    cases hpc : DbProcessor.processWebhookChange db c org ra with
    | mk e db1 =>
      obtain ⟨rs0, hrs0⟩ := DbProcessor.processWebhookChange_fst_ok db c org ra hall.1
      rw [hpc] at hrs0
      subst hrs0
      obtain ⟨rs1, hrs1⟩ := ih db1 hall.2
      cases hpl : DbProcessor.processChangeList org ra t db1 with
      | mk e2 db2 =>
        rw [hpl] at hrs1
        subst hrs1
        exact ⟨rs0 ++ rs1, by simp [hpl]⟩

theorem DbProcessor.processChangeList_fst_error (org : OrgRow) (ra : Nat) :
    ∀ (cs : List Change) (db : DB), cs.all DbProcessor.changeWellFormed = false →
      (DbProcessor.processChangeList org ra cs db).1 = .error "TypeError" := by
  intro cs
  induction cs with
  | nil => intro db h; simp at h
  | cons c t ih =>
    intro db hall
    simp only [List.all_cons, Bool.and_eq_false_iff] at hall
    unfold DbProcessor.processChangeList
    by_cases hc : DbProcessor.changeWellFormed c = true
    · obtain ⟨rs0, hrs0⟩ := DbProcessor.processWebhookChange_fst_ok db c org ra hc
      cases hpc : DbProcessor.processWebhookChange db c org ra with
      | mk e db1 =>
        rw [hpc] at hrs0
        simp only at hrs0
        subst hrs0
        have ht : t.all DbProcessor.changeWellFormed = false := by
          rcases hall with hcf | ht
          · exact absurd hcf (by simp [hc])
          · exact ht
        have hrec := ih db1 ht
        cases hpl : DbProcessor.processChangeList org ra t db1 with
        | mk e2 db2 =>
          rw [hpl] at hrec
          simp only at hrec
          subst hrec
          simp [hpl]
    · have hcf : DbProcessor.changeWellFormed c = false := by simpa using hc
      have herr := DbProcessor.processWebhookChange_fst_error db c org ra hcf
      cases hpc : DbProcessor.processWebhookChange db c org ra with
      | mk e db1 =>
        rw [hpc] at herr
        simp only at herr
        subst herr
        rfl

theorem DbProcessor.processEntryList_fst_ok (org : OrgRow) (ra : Nat) :
    ∀ (es : List Entry) (db : DB),
      (es.all fun e => e.changes.all DbProcessor.changeWellFormed) = true →
      ∃ rs, (DbProcessor.processEntryList org ra es db).1 = .ok rs := by
  intro es
  induction es with
  | nil => intro db _; exact ⟨[], rfl⟩
  | cons e t ih =>
    intro db hall
    simp only [List.all_cons, Bool.and_eq_true] at hall
    unfold DbProcessor.processEntryList
    obtain ⟨rs0, hrs0⟩ := DbProcessor.processChangeList_fst_ok org ra e.changes db hall.1
    cases hpc : DbProcessor.processChangeList org ra e.changes db with
    | mk r db1 =>
      rw [hpc] at hrs0
      simp only at hrs0
      subst hrs0
      obtain ⟨rs1, hrs1⟩ := ih db1 hall.2
      cases hpl : DbProcessor.processEntryList org ra t db1 with
      | mk r2 db2 =>
        rw [hpl] at hrs1
        simp only at hrs1
        subst hrs1
        exact ⟨rs0 ++ rs1, by simp [hpl]⟩

theorem DbProcessor.processEntryList_fst_error (org : OrgRow) (ra : Nat) :
    ∀ (es : List Entry) (db : DB),
      (es.all fun e => e.changes.all DbProcessor.changeWellFormed) = false →
      (DbProcessor.processEntryList org ra es db).1 = .error "TypeError" := by
  intro es
  induction es with
  | nil => intro db h; simp at h
  | cons e t ih =>
    intro db hall
    simp only [List.all_cons, Bool.and_eq_false_iff] at hall
    unfold DbProcessor.processEntryList
    by_cases hc : e.changes.all DbProcessor.changeWellFormed = true
    · obtain ⟨rs0, hrs0⟩ := DbProcessor.processChangeList_fst_ok org ra e.changes db hc
      cases hpc : DbProcessor.processChangeList org ra e.changes db with
      | mk r db1 =>
        rw [hpc] at hrs0
        simp only at hrs0
        subst hrs0
        have ht : (t.all fun e => e.changes.all DbProcessor.changeWellFormed) = false := by
          rcases hall with hcf | ht
          · exact absurd hcf (by simp [hc])
          · exact ht
        have hrec := ih db1 ht
        cases hpl : DbProcessor.processEntryList org ra t db1 with
        | mk r2 db2 =>
          rw [hpl] at hrec
          simp only at hrec
          subst hrec
          simp [hpl]
    · have hcf : e.changes.all DbProcessor.changeWellFormed = false := by simpa using hc
      have herr := DbProcessor.processChangeList_fst_error org ra e.changes db hcf
      cases hpc : DbProcessor.processChangeList org ra e.changes db with
      | mk r db1 =>
        rw [hpc] at herr
        simp only at herr
        subst herr
        rfl

theorem DbProcessor.processSQSRecord_fst (db : DB) (r : SQSRecord) :
    (DbProcessor.processSQSRecord db r).1 = DbProcessor.recordOutcome db.organizations r := by
  unfold DbProcessor.processSQSRecord DbProcessor.recordOutcome
  cases hb : r.body with
  | none => rfl
  | some env =>
    cases hfind : findOrganizationFromWebhook db.organizations env.webhookPayload with
    | none => simp [hfind]
    | some org =>
      unfold DbProcessor.entriesWellFormed
      by_cases hwf : (env.webhookPayload.entry.all
          fun e => e.changes.all DbProcessor.changeWellFormed) = true
      · obtain ⟨rs, hrs⟩ := DbProcessor.processEntryList_fst_ok org env.receivedAt
          env.webhookPayload.entry db hwf
        cases hpl : DbProcessor.processEntryList org env.receivedAt
            env.webhookPayload.entry db with
        | mk r2 db1 =>
          rw [hpl] at hrs
          simp only at hrs
          subst hrs
          simp [hfind, hpl, hwf]
      · have hwf' : (env.webhookPayload.entry.all
            fun e => e.changes.all DbProcessor.changeWellFormed) = false := by simpa using hwf
        have herr := DbProcessor.processEntryList_fst_error org env.receivedAt
          env.webhookPayload.entry db hwf'
        cases hpl : DbProcessor.processEntryList org env.receivedAt
            env.webhookPayload.entry db with
        | mk r2 db1 =>
          rw [hpl] at herr
          simp only at herr
          subst herr
          simp [hfind, hpl, hwf']

theorem DbProcessor.recordOutcome_messageId (orgs : List OrgRow) (r : SQSRecord) :
    (DbProcessor.recordOutcome orgs r).messageId = r.messageId := by
  unfold DbProcessor.recordOutcome
  cases hb : r.body with
  | none => rfl
  | some env =>
    cases hfind : findOrganizationFromWebhook orgs env.webhookPayload with
    | none => simp [hfind]
    | some org =>
      simp only [hfind]
      split <;> rfl

theorem DbProcessor.recordOutcome_success (orgs : List OrgRow) (r : SQSRecord) :
    (DbProcessor.recordOutcome orgs r).success = DbProcessor.recordSucceeds orgs r := by
  unfold DbProcessor.recordOutcome DbProcessor.recordSucceeds
  cases hb : r.body with
  | none => rfl
  | some env =>
    cases hfind : findOrganizationFromWebhook orgs env.webhookPayload with
    | none => simp [hfind]
    | some org =>
      simp only [hfind]
      split <;> rename_i hwf <;> simp [hwf]

theorem DbProcessor.handlerRun_results :
    ∀ (records : List SQSRecord) (db : DB),
      (DbProcessor.handlerRun db records).1 =
        records.map (DbProcessor.recordOutcome db.organizations) := by
  intro records
  induction records with
  | nil => intro db; rfl
  | cons r rs ih =>
    intro db
    unfold DbProcessor.handlerRun
    cases hp : DbProcessor.processSQSRecord db r with
    | mk res db1 =>
      have h1 : res = DbProcessor.recordOutcome db.organizations r := by
        have := DbProcessor.processSQSRecord_fst db r
        rw [hp] at this
        exact this
      have h2 : db1.organizations = db.organizations := by
        have := DbProcessor.processSQSRecord_organizations db r
        rw [hp] at this
        exact this
      cases hr : DbProcessor.handlerRun db1 rs with
      | mk ress db2 =>
        have h3 : ress = rs.map (DbProcessor.recordOutcome db.organizations) := by
          have := ih db1
          rw [hr, h2] at this
          exact this
        simp [hp, hr, h1, h3]

theorem DbProcessor.handlerRun_append (rs1 rs2 : List SQSRecord) :
    ∀ db : DB, DbProcessor.handlerRun db (rs1 ++ rs2) =
      ((DbProcessor.handlerRun db rs1).1 ++
        (DbProcessor.handlerRun (DbProcessor.handlerRun db rs1).2 rs2).1,
       (DbProcessor.handlerRun (DbProcessor.handlerRun db rs1).2 rs2).2) := by
  induction rs1 with
  | nil => intro db; rfl
  | cons r t ih =>
    intro db
    have hstep : ∀ l : List SQSRecord, DbProcessor.handlerRun db (r :: l) =
        ((DbProcessor.processSQSRecord db r).1 ::
          (DbProcessor.handlerRun (DbProcessor.processSQSRecord db r).2 l).1,
         (DbProcessor.handlerRun (DbProcessor.processSQSRecord db r).2 l).2) := fun l => rfl
    show DbProcessor.handlerRun db (r :: (t ++ rs2)) = _
    rw [hstep, hstep, ih]
    simp

/-- C1: the batch handler returns normally (status 200) with one result per
record carrying that record's SQS message id; a record's success flag
depends only on the record itself and the read-only organizations table
(body parses, tenant resolves, no change-shape throw), so one record's
failure never affects another; the reported failed identifiers are exactly
the ids of the individually-failing records; and processing a concatenated
batch equals processing the parts in sequence (no abort, no rollback). -/
theorem batch_processor_record_isolation (db : DB) (records : List SQSRecord) :
    ((DbProcessor.handler db records).1).statusCode = 200 ∧
    ((DbProcessor.handler db records).1).results.length = records.length ∧
    (∀ i : Nat,
      (((DbProcessor.handler db records).1).results[i]?.map RecordResult.messageId) =
        (records[i]?.map SQSRecord.messageId)) ∧
    (∀ i : Nat,
      (((DbProcessor.handler db records).1).results[i]?.map RecordResult.success) =
        (records[i]?.map fun r => DbProcessor.recordSucceeds db.organizations r)) ∧
    ((((DbProcessor.handler db records).1).results.filter fun r => !r.success).map
        RecordResult.messageId =
      (records.filter fun r => !(DbProcessor.recordSucceeds db.organizations r)).map
        SQSRecord.messageId) ∧
    (∀ rs1 rs2 : List SQSRecord, DbProcessor.handlerRun db (rs1 ++ rs2) =
      ((DbProcessor.handlerRun db rs1).1 ++
        (DbProcessor.handlerRun (DbProcessor.handlerRun db rs1).2 rs2).1,
       (DbProcessor.handlerRun (DbProcessor.handlerRun db rs1).2 rs2).2)) := by
  have hres : ((DbProcessor.handler db records).1).results =
      records.map (DbProcessor.recordOutcome db.organizations) :=
    DbProcessor.handlerRun_results records db
  refine ⟨rfl, ?_, ?_, ?_, ?_, fun rs1 rs2 => DbProcessor.handlerRun_append rs1 rs2 db⟩
  · rw [hres, List.length_map]
  · intro i
    rw [hres, List.getElem?_map]
    cases records[i]? with
    | none => rfl
    | some r => simp [DbProcessor.recordOutcome_messageId]
  · intro i
    rw [hres, List.getElem?_map]
    cases records[i]? with
    | none => rfl
    | some r => simp [DbProcessor.recordOutcome_success]
  · rw [hres, List.filter_map, List.map_map]
    have hfil : (records.filter
        ((fun r => !r.success) ∘ DbProcessor.recordOutcome db.organizations)) =
        records.filter fun r => !(DbProcessor.recordSucceeds db.organizations r) := by
      refine List.filter_congr ?_
      intro r _
      simp [Function.comp, DbProcessor.recordOutcome_success]
    rw [hfil]
    refine List.map_congr_left ?_
    intro r _
    simp [Function.comp, DbProcessor.recordOutcome_messageId]
